import Mathlib

/-!
Verification of the OVMS Mitsubishi i-MiEV vehicle module
(`vehicle/OVMS.X/vehicle_mitsubishi.c`) against its natural-language
specification.

The module's globals (both the module-owned `mi_*` variables and the
framework-owned `car_*` telemetry fields it reads and writes) are embedded
as one state record; each C entry point becomes a pure state-transformer.
C `unsigned char`/`unsigned int`/`unsigned long` variables are embedded as
`Nat`; the fields satisfy the width invariants of their C types
(e.g. `car_doors1 < 256`), which theorems assume as hypotheses where bit
operations need them.  Where the C code can genuinely wrap or underflow on
reachable values, the wrap is modelled explicitly with `% 2^w`; signed-char
casts are modelled by `signedCharOf`.  `net_req_notification` is modelled
by appending the event to a notification trace kept in the state.
-/

/-- Notification kinds passed to the external `net_req_notification` sink
(`NET_NOTIFY_STAT`, `NET_NOTIFY_CHARGE`, `NET_NOTIFY_ENV` in the source). -/
inductive NetNotify where
  | stat
  | charge
  | env
deriving DecidableEq, Repr

/-- A raw CAN frame: 11-bit identifier plus an 8-byte payload
(`can_id` and `can_databuffer` in the source). -/
structure Frame where
  can_id : Nat
  data : List Nat
deriving Repr

/-- Reading `can_databuffer[i]`: payload bytes are `unsigned char`. -/
def Frame.byte (f : Frame) (i : Nat) : Nat :=
  f.data.getD i 0 % 256

/-- The C `(signed char)` conversion: wrap an integer into [-128, 127]. -/
def signedCharOf (x : Int) : Int :=
  (x + 128) % 256 - 128

/-- Modelled from the spec: the external unit-conversion helper `MiFromKm`
(miles from kilometres) lives outside `src/`; the spec only says raw range
units are "converted to the active display unit".  Its exact rounding does
not affect any claim; we use the conventional 5/8 integer approximation. -/
def MiFromKm (km : Nat) : Nat :=
  km * 5 / 8

/-- The module's state: the `mi_*` globals of `vehicle_mitsubishi.c`
together with the framework telemetry fields (`car_*`) the module reads or
writes.  `car_doors5bits.Charging12V` and `car_doors3bits.CoolingPump` are
bit-fields of framework bytes whose bit positions are declared outside
`src/`; they are modelled as separate named booleans (the module accesses
them only through the named bit-field, never through the raw byte).
`car_doors1` and `car_doors3` are modelled as raw bytes because the module
manipulates them with explicit masks (bit 2 = charge port, bit 3 = pilot,
bit 4 = charging, per the source's own comment). -/
structure MiState where
  -- module-owned variables (vehicle_overlay_data)
  mi_charge_timer : Nat      -- unsigned char: per-second charge timer
  mi_charge_wm : Nat         -- unsigned long: per-minute watt accumulator
  mi_candata_timer : Nat     -- unsigned char: CAN-bus activity timer
  mi_stale_charge : Nat      -- unsigned char: charge stale timer
  mi_quick_charge : Nat      -- unsigned char: quick charge status
  mi_qc_counter : Nat        -- unsigned char: QC debounce counter
  mi_estrange : Nat          -- unsigned int: raw range from the CAN bus
  mi_batttemps : List Int    -- signed char[24]: battery temperatures
  mi_last_good_SOC : Nat     -- unsigned char: last known good SOC
  mi_last_good_range : Nat   -- unsigned char: last known good range
  -- framework telemetry fields
  car_SOC : Nat
  car_estrange : Nat
  car_idealrange : Nat
  car_linevoltage : Nat
  car_chargecurrent : Nat
  car_doors1 : Nat
  car_doors3 : Nat
  car_doors5_Charging12V : Bool
  car_doors3_CoolingPump : Bool
  car_chargemode : Nat
  car_chargestate : Nat
  car_chargesubstate : Nat
  car_chargelimit : Nat
  car_chargeduration : Nat
  car_chargekwh : Nat
  car_time : Nat             -- unsigned long
  car_stale_temps : Int      -- signed char
  car_stale_timer : Int      -- signed char
  car_SOCalertlimit : Nat
  car_speed : Nat
  car_parktime : Nat         -- unsigned long
  car_odometer : Nat         -- unsigned long
  car_tpem : Int
  car_tmotor : Int
  car_tbattery : Int
  car_type : List Nat
  can_mileskm : Char
  -- trace of notifications requested via net_req_notification
  notifications : List NetNotify
deriving Repr

/-- Models `car_doors3bits.CoolingPump = (car_stale_temps <= 1)?0:1;`. -/
def coolingPumpStale (s : MiState) : MiState :=
  { s with car_doors3_CoolingPump := if s.car_stale_temps ≤ 1 then false else true }

/-- The charge stale timer block of `vehicle_mitsubishi_ticker1`:
`if (mi_stale_charge > 0) { if (--mi_stale_charge == 0) {...} }`. -/
def chargeStaleTick (s : MiState) : MiState :=
  if s.mi_stale_charge > 0 then
    if s.mi_stale_charge - 1 = 0 then -- charge stale
      { s with mi_stale_charge := 0, mi_quick_charge := 0,
               car_linevoltage := 0, car_chargecurrent := 0 }
    else
      { s with mi_stale_charge := s.mi_stale_charge - 1 }
  else s

/-- The CAN-data timer block of `vehicle_mitsubishi_ticker1`:
`if (mi_candata_timer > 0) { if (--mi_candata_timer == 0) ... else ... }`. -/
def candataTick (s : MiState) : MiState :=
  if s.mi_candata_timer > 0 then
    if s.mi_candata_timer - 1 = 0 then -- car has gone to sleep
      { s with mi_candata_timer := 0, car_doors3 := s.car_doors3 &&& 0xFE }
    else -- car is awake
      { s with mi_candata_timer := s.mi_candata_timer - 1,
               car_doors3 := s.car_doors3 ||| 0x01 }
  else s

/-- Stale tickers section of `vehicle_mitsubishi_ticker1` (cooling-pump
staleness flag, charge stale timer, CAN-data timer, `car_time++`;
`car_time` is an unsigned long). -/
def staleTickers (s : MiState) : MiState :=
  let s := candataTick (chargeStaleTick (coolingPumpStale s))
  { s with car_time := (s.car_time + 1) % 4294967296 }

/-- The quick-charging arm of the range update.  In the interpolation the
divisor `(unsigned int)(mi_last_good_SOC - 10)` underflows in C when
`mi_last_good_SOC < 10` (reachable before any anchor write), so its
16-bit wrap is modelled as `(x + 65526) % 65536`; the numerator product
of two in-range bytes cannot exceed 16 bits and is kept exact. -/
def quickChargeRange (s : MiState) : MiState :=
  if s.car_SOC ≤ 10 then
    { s with car_estrange := 0 }
  else
    let s :=
      if s.car_SOC < 20 then
        { s with mi_last_good_SOC := 20, mi_last_good_range := 8 }
      else s
    { s with car_estrange :=
        s.mi_last_good_range * (s.car_SOC - 10)
          / ((s.mi_last_good_SOC + 65526) % 65536) }

/-- The not-quick-charging arm of the range update: publish the raw range
(if not the 255 sentinel), converting units if needed, then save the last
good (SOC, range) anchor when `car_SOC >= 20 && car_estrange >= 5`. -/
def normalRange (s : MiState) : MiState :=
  let s :=
    if s.mi_estrange ≠ 255 then
      if s.can_mileskm = 'K' then
        { s with car_estrange := MiFromKm s.mi_estrange % 65536 }
      else
        { s with car_estrange := s.mi_estrange }
    else s
  if s.car_SOC ≥ 20 ∧ s.car_estrange ≥ 5 then -- save last good value
    { s with mi_last_good_SOC := s.car_SOC,
             mi_last_good_range := s.car_estrange % 256 }
  else s

/-- `car_idealrange` computation: only SOC above 10% usable. -/
def idealRange (s : MiState) : MiState :=
  if s.car_SOC ≤ 10 then
    { s with car_idealrange := 0 }
  else
    { s with car_idealrange := (s.car_SOC - 10) * 104 / 100 }

/-- Range update section of `vehicle_mitsubishi_ticker1`. -/
def rangeUpdate (s : MiState) : MiState :=
  idealRange (if s.mi_quick_charge = 1 then quickChargeRange s else normalRange s)

/-- The per-minute energy accumulation of `vehicle_mitsubishi_ticker1`
(lines `mi_charge_wm += ...; if (mi_charge_wm >= 60000L) ...`): add
current×voltage watt-minutes (the accumulator is a 32-bit unsigned long)
and carry at most one 60000-watt-minute unit into the kWh counter.
Returns (new accumulator, new kWh). -/
def accumulateMinute (wm kwh cur vol : Nat) : Nat × Nat :=
  let wm := (wm + cur * vol) % 4294967296
  if wm ≥ 60000 then (wm - 60000, kwh + 1) else (wm, kwh)

/-- The "CAN says the car is charging" branch of the charge state
determination: start a new charge when the pilot bit (0x08) is clear, or
accumulate into the ongoing charge. -/
def chargingBranch (s : MiState) : MiState :=
  let s := { s with car_doors5_Charging12V := true }
  if s.car_doors1 &&& 0x08 = 0 then
    -- charge has started
    { s with car_doors1 := s.car_doors1 ||| 0x1C,
             car_chargemode := 0,
             car_chargestate := 1,
             car_chargesubstate := 3,
             car_chargelimit := if s.mi_quick_charge = 1 then 125 else 16,
             car_chargeduration := 0,
             car_chargekwh := 0,
             mi_charge_timer := 0,
             mi_charge_wm := 0,
             notifications := s.notifications ++ [NetNotify.stat] }
  else
    -- charge is ongoing
    let s := { s with car_doors1 := s.car_doors1 ||| 0x04 }
    if (s.mi_charge_timer + 1) % 256 ≥ 60 then
      -- one minute has passed
      let s := { s with mi_charge_timer := 0,
                        car_chargeduration := s.car_chargeduration + 1 }
      if s.mi_quick_charge = 0 then
        let acc := accumulateMinute s.mi_charge_wm s.car_chargekwh
                     s.car_chargecurrent s.car_linevoltage
        { s with mi_charge_wm := acc.1, car_chargekwh := acc.2 }
      else s
    else
      { s with mi_charge_timer := (s.mi_charge_timer + 1) % 256 }

/-- The cell-balancing-pause branch (`current == 0 && voltage > 100`):
declare the charge done only when previously charging with SOC = 100. -/
def balancingBranch (s : MiState) : MiState :=
  let s :=
    if s.car_doors1 &&& 0x08 ≠ 0 ∧ s.car_SOC = 100 then
      -- charge has completed
      { s with car_doors1 := (s.car_doors1 &&& 0xE7) ||| 0x04,
               car_chargemode := 0,
               car_chargestate := 4,
               car_chargesubstate := 3,
               mi_charge_timer := 0,
               mi_charge_wm := 0,
               notifications := s.notifications ++ [NetNotify.charge, NetNotify.stat] }
    else s
  { s with car_doors5_Charging12V := false }

/-- The stopped branch (`current == 0 && voltage < 100 && !quick_charge`):
when previously charging, classify as interrupted (SOC < 95) or done,
then clear the charge port flag. -/
def stoppedBranch (s : MiState) : MiState :=
  let s :=
    if s.car_doors1 &&& 0x08 ≠ 0 then
      -- charge has completed / stopped
      let s := { s with car_doors1 := (s.car_doors1 &&& 0xE7) ||| 0x04,
                        car_chargemode := 0 }
      let s :=
        if s.car_SOC < 95 then
          -- assume charge was interrupted
          { s with car_chargestate := 21,
                   car_chargesubstate := 14,
                   notifications := s.notifications ++ [NetNotify.charge] }
        else
          -- assume charge completed normally
          { s with car_chargestate := 4,
                   car_chargesubstate := 3,
                   notifications := s.notifications ++ [NetNotify.charge] }
      { s with mi_charge_timer := 0, mi_charge_wm := 0,
               notifications := s.notifications ++ [NetNotify.stat] }
    else s
  { s with car_doors5_Charging12V := false,
           car_doors1 := s.car_doors1 &&& 0xFB }

/-- Charge state determination section of `vehicle_mitsubishi_ticker1`
(the if/else-if chain on quick-charge, charge current and line voltage). -/
def chargeStateMachine (s : MiState) : MiState :=
  if s.mi_quick_charge = 1 ∨ (s.car_chargecurrent ≠ 0 ∧ s.car_linevoltage > 100) then
    chargingBranch s
  else if s.car_chargecurrent = 0 ∧ s.car_linevoltage > 100 then
    balancingBranch s
  else if s.car_chargecurrent = 0 ∧ s.car_linevoltage < 100 ∧ s.mi_quick_charge = 0 then
    stoppedBranch s
  else s

/-- `vehicle_mitsubishi_ticker1`: the 1-second tick entry point. -/
def vehicle_mitsubishi_ticker1 (s : MiState) : MiState :=
  chargeStateMachine (rangeUpdate (staleTickers s))

/-- `vehicle_mitsubishi_ticker10`: the 10-second tick (battery temperature
reduction).  `tbattery / 24` is C signed division, truncating toward zero
(`Int.div`). -/
def vehicle_mitsubishi_ticker10 (s : MiState) : MiState :=
  { s with car_tbattery := Int.tdiv (s.mi_batttemps.foldl (· + ·) 0) 24 }

/-- `vehicle_mitsubishi_poll0`: frame handler for buffer 0
(range 0x346, SOC 0x374, charge voltage/current 0x389).
`(unsigned int)can_databuffer[1] - 10` in the SOC decode is unsigned
16-bit arithmetic and underflows for bytes below 10, modelled as
`(b + 65526) % 65536`. -/
def vehicle_mitsubishi_poll0 (f : Frame) (s : MiState) : MiState :=
  let s := { s with mi_candata_timer := 60 } -- reset the timer
  if f.can_id = 0x346 then -- range
    let s := { s with mi_estrange := f.byte 7 }
    if s.mi_estrange = 255 ∧ s.car_speed < 5 then
      let s :=
        if s.mi_qc_counter > 0 then { s with mi_qc_counter := s.mi_qc_counter - 1 } else s
      if s.mi_qc_counter = 0 then
        { s with mi_quick_charge := 1, mi_stale_charge := 30 }
      else s
    else
      if s.mi_qc_counter < 3 then
        { s with mi_qc_counter := s.mi_qc_counter + 1 }
      else
        { s with mi_quick_charge := 0 }
  else if f.can_id = 0x374 then -- SOC
    { s with car_SOC := (f.byte 1 + 65526) % 65536 / 2 % 256 }
  else if f.can_id = 0x389 then -- charge voltage & current
    { s with car_linevoltage := f.byte 1,
             car_chargecurrent := f.byte 6 / 10 % 256,
             mi_stale_charge := 30 }
  else s

/-- `vehicle_mitsubishi_poll1`: frame handler for buffer 1
(park state 0x285, charger temp 0x286, motor temp 0x298, speed/odo 0x412,
battery temperatures 0x6E1). -/
def vehicle_mitsubishi_poll1 (f : Frame) (s : MiState) : MiState :=
  let s := { s with mi_candata_timer := 60 } -- reset the timer
  if f.can_id = 0x285 then
    if f.byte 6 = 0x0C then -- car in park
      let s := { s with car_doors1 := (s.car_doors1 ||| 0x40) &&& 0x7F }
      if s.car_parktime = 0 then
        { s with car_parktime := (s.car_time + 4294967295) % 4294967296,
                 notifications := s.notifications ++ [NetNotify.env] }
      else s
    else if f.byte 6 = 0x0E then -- car not in park
      let s := { s with car_doors1 := (s.car_doors1 &&& 0xBF) ||| 0x80 }
      if s.car_parktime ≠ 0 then
        { s with car_parktime := 0,
                 notifications := s.notifications ++ [NetNotify.env] }
      else s
    else s
  else if f.can_id = 0x286 then -- charger temp
    { s with car_tpem := signedCharOf (signedCharOf (f.byte 3) - 40),
             car_stale_temps := 60 }
  else if f.can_id = 0x298 then -- motor temp
    { s with car_tmotor := signedCharOf ((f.byte 3 : Int) - 40),
             car_stale_temps := 60 }
  else if f.can_id = 0x412 then -- speed & odo
    let s :=
      if f.byte 1 > 200 then
        { s with car_speed := (f.byte 1 + 65281) % 65536 % 256 }
      else
        { s with car_speed := f.byte 1 }
    let odoRaw := ((f.byte 2 <<< 16) + (f.byte 3 <<< 8) + f.byte 4) * 10
    if s.can_mileskm = 'K' then
      { s with car_odometer := MiFromKm odoRaw % 4294967296 }
    else
      { s with car_odometer := odoRaw % 4294967296 }
  else if f.can_id = 0x6E1 then -- battery temperatures
    let idx := f.byte 0
    if 1 ≤ idx ∧ idx ≤ 12 then
      let i := (idx <<< 1) - 2
      { s with mi_batttemps :=
                 (s.mi_batttemps.set i (signedCharOf ((f.byte 2 : Int) - 50))).set
                   (i + 1) (signedCharOf ((f.byte 3 : Int) - 50)),
               car_stale_temps := 60 }
    else s
  else s

/-- `vehicle_mitsubishi_initialise`: the initialisation entry point.  Only
the vehicle-data initialisation is modelled; the CAN controller register
configuration is hardware bring-up outside the telemetry model. -/
def vehicle_mitsubishi_initialise (s : MiState) : MiState :=
  { s with car_type := [77, 73, 0, 0, 0], -- 'M', 'I', 0, 0, 0
           car_stale_timer := -1,
           car_time := 0,
           mi_candata_timer := 0,
           car_SOCalertlimit := 10,
           mi_stale_charge := 0,
           mi_quick_charge := 0,
           mi_qc_counter := 3,
           mi_estrange := 0,
           mi_batttemps := List.replicate 24 0 }

/-- `vehicle_mitsubishi_ticker1` applied after a fresh 0x389 charge frame
reporting 150 V (byte 1) and 16 A (byte 6 = 160, scaled by 1/10): one
second of a charge session whose charge-signal data is kept fresh. -/
def chargeFrame150 : Frame :=
  ⟨0x389, [0, 150, 0, 0, 0, 0, 160, 0]⟩

/-- A 0x346 range frame carrying range byte `b` in payload byte 7. -/
def rangeFrame (b : Nat) : Frame :=
  ⟨0x346, [0, 0, 0, 0, 0, 0, 0, b]⟩

/-- Fold `vehicle_mitsubishi_poll0` over a sequence of range frames: the
quick-charge debounce filter observing one range byte per frame. -/
def qcRun (bs : List Nat) (s : MiState) : MiState :=
  bs.foldl (fun st b => vehicle_mitsubishi_poll0 (rangeFrame b) st) s

/-- `n` alternating single confirming/disconfirming range observations
starting with a confirming one (range byte 255 then a non-sentinel). -/
def altCD : Nat → List Nat
  | 0 => []
  | n + 1 => 255 :: 100 :: altCD n

/-- `n` alternating single disconfirming/confirming range observations
starting with a disconfirming one. -/
def altDC : Nat → List Nat
  | 0 => []
  | n + 1 => 100 :: 255 :: altDC n

/-- Fold the per-minute energy accumulation over a list of
(current, voltage) samples, one per minute. -/
def accumRun (samples : List (Nat × Nat)) (acc : Nat × Nat) : Nat × Nat :=
  samples.foldl (fun a cv => accumulateMinute a.1 a.2 cv.1 cv.2) acc

/-- Total watt-minutes carried by a list of (current, voltage) samples. -/
def sumWatts (samples : List (Nat × Nat)) : Nat :=
  (samples.map (fun cv => cv.1 * cv.2)).sum

/-- One second of the charge-start scenario: fresh voltage/current data
(0x389 frame) followed by the 1-second tick. -/
def c4Step (s : MiState) : MiState :=
  vehicle_mitsubishi_ticker1 (vehicle_mitsubishi_poll0 chargeFrame150 s)

/-- A fully-zeroed baseline state used by the concrete scenarios below. -/
def baseState : MiState :=
  { mi_charge_timer := 0, mi_charge_wm := 0, mi_candata_timer := 0,
    mi_stale_charge := 0, mi_quick_charge := 0, mi_qc_counter := 3,
    mi_estrange := 0, mi_batttemps := List.replicate 24 0,
    mi_last_good_SOC := 0, mi_last_good_range := 0,
    car_SOC := 50, car_estrange := 0, car_idealrange := 0,
    car_linevoltage := 0, car_chargecurrent := 0,
    car_doors1 := 0, car_doors3 := 0,
    car_doors5_Charging12V := false, car_doors3_CoolingPump := false,
    car_chargemode := 0, car_chargestate := 0, car_chargesubstate := 0,
    car_chargelimit := 0, car_chargeduration := 0, car_chargekwh := 0,
    car_time := 0, car_stale_temps := 0, car_stale_timer := 0,
    car_SOCalertlimit := 0, car_speed := 0, car_parktime := 0,
    car_odometer := 0, car_tpem := 0, car_tmotor := 0, car_tbattery := 0,
    car_type := [], can_mileskm := 'M', notifications := [] }

/-- An actively-charging state seeing current = 0 at exactly 100 V line
voltage with SOC 80 (for the boundary case of the stop logic). -/
def c1CexState : MiState :=
  { baseState with car_doors1 := 0x1C, car_chargestate := 1,
                   car_chargesubstate := 3, car_linevoltage := 100,
                   car_chargecurrent := 0, car_SOC := 80 }

/-- A confirmed quick-charge filter state (flag set, counter at 0). -/
def c2Confirmed : MiState :=
  { baseState with mi_quick_charge := 1, mi_qc_counter := 0 }

/-- The initial state of the charge-start scenario: not charging,
SOC 50, everything else zeroed. -/
def c4Start : MiState :=
  baseState

/-- Quick-charging at SOC 15 with a good stored anchor (SOC 50, range 40). -/
def c6CexState : MiState :=
  { baseState with mi_quick_charge := 1, car_SOC := 15,
                   mi_last_good_SOC := 50, mi_last_good_range := 40,
                   car_doors1 := 0x1C, car_chargestate := 1 }

/-- Quick-charging at SOC 12 with a good stored anchor (SOC 80, range 60). -/
def c7CexState : MiState :=
  { baseState with mi_quick_charge := 1, car_SOC := 12,
                   mi_last_good_SOC := 80, mi_last_good_range := 60,
                   car_doors1 := 0x1C, car_chargestate := 1 }

/-- A state with nonzero charge timer, watt accumulator and anchor, used
to probe what the initialisation entry point resets. -/
def c8CexState : MiState :=
  { baseState with mi_charge_timer := 7, mi_charge_wm := 5,
                   mi_last_good_SOC := 50, mi_last_good_range := 40 }

/-- An ongoing-charge state entering the cell-balancing pause:
current 0, voltage 230, SOC 70, accumulators mid-charge. -/
def c9WitState : MiState :=
  { baseState with car_doors1 := 0x1C, car_chargestate := 1,
                   car_chargesubstate := 3, car_linevoltage := 230,
                   car_chargecurrent := 0, car_SOC := 70,
                   car_doors5_Charging12V := true, mi_charge_timer := 33,
                   mi_charge_wm := 1234, car_chargeduration := 9,
                   car_chargekwh := 2 }

/-- A battery-temperature frame for bank 3 with raw temperatures 60, 70. -/
def c10Frame : Frame :=
  ⟨0x6E1, [3, 0, 60, 70, 0, 0, 0, 0]⟩

/-- A charging state one tick before the charge-stale timer expires. -/
def c5FireState : MiState :=
  { baseState with mi_stale_charge := 1, mi_candata_timer := 1,
                   mi_quick_charge := 1, car_linevoltage := 230,
                   car_chargecurrent := 16, car_doors3 := 3 }

/-- A state with both staleness timers well above zero. -/
def c5QuietState : MiState :=
  { baseState with mi_stale_charge := 30, mi_candata_timer := 60,
                   car_linevoltage := 230, car_chargecurrent := 16,
                   car_doors3 := 2 }

/-- A quick-charging state at SOC 30 with stored anchor (SOC 60, range 45). -/
def c6WitState : MiState :=
  { baseState with mi_quick_charge := 1, car_SOC := 30,
                   mi_last_good_SOC := 60, mi_last_good_range := 45 }

/-- A charging state that sees current = 0 at 50 V with SOC 80. -/
def c1WitState : MiState :=
  { baseState with car_doors1 := 0x1C, car_chargestate := 1,
                   car_chargesubstate := 3, car_linevoltage := 50,
                   car_chargecurrent := 0, car_SOC := 80 }

lemma chargeStateMachine_keep (s : MiState) :
    (chargeStateMachine s).mi_stale_charge = s.mi_stale_charge ∧
    (chargeStateMachine s).mi_candata_timer = s.mi_candata_timer ∧
    (chargeStateMachine s).car_doors3 = s.car_doors3 ∧
    (chargeStateMachine s).mi_quick_charge = s.mi_quick_charge ∧
    (chargeStateMachine s).car_linevoltage = s.car_linevoltage ∧
    (chargeStateMachine s).car_chargecurrent = s.car_chargecurrent ∧
    (chargeStateMachine s).car_SOC = s.car_SOC ∧
    (chargeStateMachine s).mi_last_good_SOC = s.mi_last_good_SOC ∧
    (chargeStateMachine s).mi_last_good_range = s.mi_last_good_range ∧
    (chargeStateMachine s).car_estrange = s.car_estrange ∧
    (chargeStateMachine s).mi_estrange = s.mi_estrange ∧
    (chargeStateMachine s).car_idealrange = s.car_idealrange ∧
    (chargeStateMachine s).mi_qc_counter = s.mi_qc_counter ∧
    (chargeStateMachine s).car_speed = s.car_speed := by
  unfold chargeStateMachine chargingBranch balancingBranch stoppedBranch
  dsimp only
  repeat' split
  all_goals exact ⟨rfl, rfl, rfl, rfl, rfl, rfl, rfl, rfl, rfl, rfl, rfl, rfl, rfl, rfl⟩

lemma rangeUpdate_keep (s : MiState) :
    (rangeUpdate s).mi_quick_charge = s.mi_quick_charge ∧
    (rangeUpdate s).car_linevoltage = s.car_linevoltage ∧
    (rangeUpdate s).car_chargecurrent = s.car_chargecurrent ∧
    (rangeUpdate s).car_SOC = s.car_SOC ∧
    (rangeUpdate s).mi_stale_charge = s.mi_stale_charge ∧
    (rangeUpdate s).mi_candata_timer = s.mi_candata_timer ∧
    (rangeUpdate s).car_doors1 = s.car_doors1 ∧
    (rangeUpdate s).car_doors3 = s.car_doors3 ∧
    (rangeUpdate s).car_chargestate = s.car_chargestate ∧
    (rangeUpdate s).car_chargesubstate = s.car_chargesubstate ∧
    (rangeUpdate s).car_chargeduration = s.car_chargeduration ∧
    (rangeUpdate s).car_chargekwh = s.car_chargekwh ∧
    (rangeUpdate s).mi_charge_timer = s.mi_charge_timer ∧
    (rangeUpdate s).mi_charge_wm = s.mi_charge_wm ∧
    (rangeUpdate s).notifications = s.notifications ∧
    (rangeUpdate s).car_doors5_Charging12V = s.car_doors5_Charging12V ∧
    (rangeUpdate s).mi_estrange = s.mi_estrange ∧
    (rangeUpdate s).mi_qc_counter = s.mi_qc_counter ∧
    (rangeUpdate s).car_speed = s.car_speed := by
  unfold rangeUpdate quickChargeRange normalRange idealRange
  dsimp only
  repeat' split
  all_goals exact ⟨rfl, rfl, rfl, rfl, rfl, rfl, rfl, rfl, rfl, rfl, rfl, rfl, rfl, rfl, rfl, rfl, rfl, rfl, rfl⟩

lemma staleTickers_keep (s : MiState) :
    (staleTickers s).car_SOC = s.car_SOC ∧
    (staleTickers s).car_doors1 = s.car_doors1 ∧
    (staleTickers s).car_chargestate = s.car_chargestate ∧
    (staleTickers s).car_chargesubstate = s.car_chargesubstate ∧
    (staleTickers s).car_chargeduration = s.car_chargeduration ∧
    (staleTickers s).car_chargekwh = s.car_chargekwh ∧
    (staleTickers s).mi_charge_timer = s.mi_charge_timer ∧
    (staleTickers s).mi_charge_wm = s.mi_charge_wm ∧
    (staleTickers s).mi_last_good_SOC = s.mi_last_good_SOC ∧
    (staleTickers s).mi_last_good_range = s.mi_last_good_range ∧
    (staleTickers s).mi_estrange = s.mi_estrange ∧
    (staleTickers s).car_estrange = s.car_estrange ∧
    (staleTickers s).notifications = s.notifications ∧
    (staleTickers s).can_mileskm = s.can_mileskm ∧
    (staleTickers s).car_doors5_Charging12V = s.car_doors5_Charging12V ∧
    (staleTickers s).mi_qc_counter = s.mi_qc_counter ∧
    (staleTickers s).car_speed = s.car_speed := by
  unfold staleTickers candataTick chargeStaleTick coolingPumpStale
  dsimp only
  repeat' split
  all_goals exact ⟨rfl, rfl, rfl, rfl, rfl, rfl, rfl, rfl, rfl, rfl, rfl, rfl, rfl, rfl, rfl, rfl, rfl⟩

lemma coolingPumpStale_keep (s : MiState) :
    (coolingPumpStale s).mi_stale_charge = s.mi_stale_charge ∧
    (coolingPumpStale s).mi_candata_timer = s.mi_candata_timer ∧
    (coolingPumpStale s).mi_quick_charge = s.mi_quick_charge ∧
    (coolingPumpStale s).car_linevoltage = s.car_linevoltage ∧
    (coolingPumpStale s).car_chargecurrent = s.car_chargecurrent ∧
    (coolingPumpStale s).car_doors3 = s.car_doors3 := by
  exact ⟨rfl, rfl, rfl, rfl, rfl, rfl⟩

lemma chargeStaleTick_keep (s : MiState) :
    (chargeStaleTick s).mi_candata_timer = s.mi_candata_timer ∧
    (chargeStaleTick s).car_doors3 = s.car_doors3 := by
  unfold chargeStaleTick
  repeat' split
  all_goals exact ⟨rfl, rfl⟩

lemma chargeStaleTick_stale (s : MiState) :
    (chargeStaleTick s).mi_stale_charge = s.mi_stale_charge - 1 := by
  unfold chargeStaleTick
  split
  · split <;> dsimp only <;> omega
  · omega

lemma chargeStaleTick_quiet (s : MiState) (h : s.mi_stale_charge ≠ 1) :
    (chargeStaleTick s).mi_quick_charge = s.mi_quick_charge ∧
    (chargeStaleTick s).car_linevoltage = s.car_linevoltage ∧
    (chargeStaleTick s).car_chargecurrent = s.car_chargecurrent := by
  unfold chargeStaleTick
  split
  · split
    · omega
    · exact ⟨rfl, rfl, rfl⟩
  · exact ⟨rfl, rfl, rfl⟩

lemma chargeStaleTick_fire (s : MiState) (h : s.mi_stale_charge = 1) :
    (chargeStaleTick s).mi_quick_charge = 0 ∧
    (chargeStaleTick s).car_linevoltage = 0 ∧
    (chargeStaleTick s).car_chargecurrent = 0 := by
  unfold chargeStaleTick
  rw [if_pos (by omega), if_pos (by omega)]
  exact ⟨rfl, rfl, rfl⟩

lemma candataTick_keep (s : MiState) :
    (candataTick s).mi_stale_charge = s.mi_stale_charge ∧
    (candataTick s).mi_quick_charge = s.mi_quick_charge ∧
    (candataTick s).car_linevoltage = s.car_linevoltage ∧
    (candataTick s).car_chargecurrent = s.car_chargecurrent := by
  unfold candataTick
  repeat' split
  all_goals exact ⟨rfl, rfl, rfl, rfl⟩

lemma candataTick_candata (s : MiState) :
    (candataTick s).mi_candata_timer = s.mi_candata_timer - 1 := by
  unfold candataTick
  split
  · split <;> dsimp only <;> omega
  · omega

lemma candataTick_doors3_fire (s : MiState) (h : s.mi_candata_timer = 1) :
    (candataTick s).car_doors3 = s.car_doors3 &&& 0xFE := by
  unfold candataTick
  rw [if_pos (by omega), if_pos (by omega)]

lemma candataTick_doors3_awake (s : MiState) (h : 1 < s.mi_candata_timer) :
    (candataTick s).car_doors3 = s.car_doors3 ||| 0x01 := by
  unfold candataTick
  rw [if_pos (by omega), if_neg (by omega)]

lemma candataTick_doors3_idle (s : MiState) (h : s.mi_candata_timer = 0) :
    (candataTick s).car_doors3 = s.car_doors3 := by
  unfold candataTick
  rw [if_neg (by omega)]

lemma staleTickers_timers (s : MiState) :
    (staleTickers s).mi_stale_charge = s.mi_stale_charge - 1 ∧
    (staleTickers s).mi_candata_timer = s.mi_candata_timer - 1 := by
  unfold staleTickers
  dsimp only
  simp only [candataTick_keep, candataTick_candata, chargeStaleTick_stale,
             chargeStaleTick_keep, coolingPumpStale_keep]
  all_goals trivial

lemma staleTickers_charge_quiet (s : MiState) (h : s.mi_stale_charge ≠ 1) :
    (staleTickers s).mi_quick_charge = s.mi_quick_charge ∧
    (staleTickers s).car_linevoltage = s.car_linevoltage ∧
    (staleTickers s).car_chargecurrent = s.car_chargecurrent := by
  unfold staleTickers
  dsimp only
  have h' : (coolingPumpStale s).mi_stale_charge ≠ 1 := h
  simp only [candataTick_keep, chargeStaleTick_quiet _ h', coolingPumpStale_keep]
  all_goals trivial

lemma staleTickers_charge_fire (s : MiState) (h : s.mi_stale_charge = 1) :
    (staleTickers s).mi_quick_charge = 0 ∧
    (staleTickers s).car_linevoltage = 0 ∧
    (staleTickers s).car_chargecurrent = 0 := by
  unfold staleTickers
  dsimp only
  have h' : (coolingPumpStale s).mi_stale_charge = 1 := h
  simp only [candataTick_keep, chargeStaleTick_fire _ h']
  all_goals trivial

lemma staleTickers_doors3_fire (s : MiState) (h : s.mi_candata_timer = 1) :
    (staleTickers s).car_doors3 = s.car_doors3 &&& 0xFE := by
  unfold staleTickers
  dsimp only
  have h' : (chargeStaleTick (coolingPumpStale s)).mi_candata_timer = 1 := by
    simp only [chargeStaleTick_keep, coolingPumpStale_keep]; exact h
  simp only [candataTick_doors3_fire _ h', chargeStaleTick_keep, coolingPumpStale_keep]

lemma staleTickers_doors3_awake (s : MiState) (h : 1 < s.mi_candata_timer) :
    (staleTickers s).car_doors3 = s.car_doors3 ||| 0x01 := by
  unfold staleTickers
  dsimp only
  have h' : 1 < (chargeStaleTick (coolingPumpStale s)).mi_candata_timer := by
    simp only [chargeStaleTick_keep, coolingPumpStale_keep]; exact h
  simp only [candataTick_doors3_awake _ h', chargeStaleTick_keep, coolingPumpStale_keep]

lemma staleTickers_doors3_idle (s : MiState) (h : s.mi_candata_timer = 0) :
    (staleTickers s).car_doors3 = s.car_doors3 := by
  unfold staleTickers
  dsimp only
  have h' : (chargeStaleTick (coolingPumpStale s)).mi_candata_timer = 0 := by
    simp only [chargeStaleTick_keep, coolingPumpStale_keep]; exact h
  simp only [candataTick_doors3_idle _ h', chargeStaleTick_keep, coolingPumpStale_keep]

lemma csm_charging (s : MiState)
    (h : s.mi_quick_charge = 1 ∨ (s.car_chargecurrent ≠ 0 ∧ s.car_linevoltage > 100)) :
    chargeStateMachine s = chargingBranch s := by
  unfold chargeStateMachine
  rw [if_pos h]

lemma csm_balancing (s : MiState) (hc : s.car_chargecurrent = 0)
    (hv : 100 < s.car_linevoltage) (hqc : s.mi_quick_charge = 0) :
    chargeStateMachine s = balancingBranch s := by
  unfold chargeStateMachine
  rw [if_neg (by simp [hc, hqc]), if_pos ⟨hc, hv⟩]

lemma csm_stopped (s : MiState) (hc : s.car_chargecurrent = 0)
    (hv : s.car_linevoltage < 100) (hqc : s.mi_quick_charge = 0) :
    chargeStateMachine s = stoppedBranch s := by
  unfold chargeStateMachine
  rw [if_neg (by simp [hc, hqc]), if_neg (by omega), if_pos ⟨hc, hv, hqc⟩]

lemma csm_idle_100 (s : MiState) (hc : s.car_chargecurrent = 0)
    (hv : s.car_linevoltage = 100) (hqc : s.mi_quick_charge = 0) :
    chargeStateMachine s = s := by
  unfold chargeStateMachine
  rw [if_neg (by simp [hc, hqc]), if_neg (by omega), if_neg (by simp [hv])]

lemma balancingBranch_noop (s : MiState) (hsoc : s.car_SOC ≠ 100) :
    balancingBranch s = { s with car_doors5_Charging12V := false } := by
  unfold balancingBranch
  rw [if_neg (by simp [hsoc])]

lemma balancingBranch_done (s : MiState) (hact : s.car_doors1 &&& 0x08 ≠ 0)
    (hsoc : s.car_SOC = 100) :
    balancingBranch s =
      { s with car_doors1 := (s.car_doors1 &&& 0xE7) ||| 0x04,
               car_chargemode := 0,
               car_chargestate := 4,
               car_chargesubstate := 3,
               mi_charge_timer := 0,
               mi_charge_wm := 0,
               notifications := s.notifications ++ [NetNotify.charge, NetNotify.stat],
               car_doors5_Charging12V := false } := by
  unfold balancingBranch
  rw [if_pos ⟨hact, hsoc⟩]

lemma stoppedBranch_active (s : MiState) (hact : s.car_doors1 &&& 0x08 ≠ 0) :
    stoppedBranch s =
      { s with car_doors1 := ((s.car_doors1 &&& 0xE7) ||| 0x04) &&& 0xFB,
               car_chargemode := 0,
               car_chargestate := if s.car_SOC < 95 then 21 else 4,
               car_chargesubstate := if s.car_SOC < 95 then 14 else 3,
               mi_charge_timer := 0,
               mi_charge_wm := 0,
               notifications := s.notifications ++ [NetNotify.charge, NetNotify.stat],
               car_doors5_Charging12V := false } := by
  unfold stoppedBranch
  dsimp only
  rw [if_pos hact]
  split <;> simp_all

lemma stoppedBranch_idle (s : MiState) (hact : s.car_doors1 &&& 0x08 = 0) :
    stoppedBranch s =
      { s with car_doors5_Charging12V := false,
               car_doors1 := s.car_doors1 &&& 0xFB } := by
  unfold stoppedBranch
  rw [if_neg (by simp [hact])]

lemma chargingBranch_start (s : MiState) (h : s.car_doors1 &&& 0x08 = 0) :
    chargingBranch s =
      { s with car_doors5_Charging12V := true,
               car_doors1 := s.car_doors1 ||| 0x1C,
               car_chargemode := 0,
               car_chargestate := 1,
               car_chargesubstate := 3,
               car_chargelimit := if s.mi_quick_charge = 1 then 125 else 16,
               car_chargeduration := 0,
               car_chargekwh := 0,
               mi_charge_timer := 0,
               mi_charge_wm := 0,
               notifications := s.notifications ++ [NetNotify.stat] } := by
  unfold chargingBranch
  dsimp only
  rw [if_pos h]

lemma idealRange_keep (s : MiState) :
    (idealRange s).mi_last_good_SOC = s.mi_last_good_SOC ∧
    (idealRange s).mi_last_good_range = s.mi_last_good_range ∧
    (idealRange s).car_estrange = s.car_estrange ∧
    (idealRange s).car_SOC = s.car_SOC ∧
    (idealRange s).mi_quick_charge = s.mi_quick_charge ∧
    (idealRange s).car_linevoltage = s.car_linevoltage ∧
    (idealRange s).car_chargecurrent = s.car_chargecurrent ∧
    (idealRange s).car_doors1 = s.car_doors1 := by
  unfold idealRange
  split
  · exact ⟨rfl, rfl, rfl, rfl, rfl, rfl, rfl, rfl⟩
  · exact ⟨rfl, rfl, rfl, rfl, rfl, rfl, rfl, rfl⟩

lemma rangeUpdate_qc (s : MiState) (h : s.mi_quick_charge = 1) :
    rangeUpdate s = idealRange (quickChargeRange s) := by
  unfold rangeUpdate
  rw [if_pos h]

lemma rangeUpdate_noqc (s : MiState) (h : s.mi_quick_charge ≠ 1) :
    rangeUpdate s = idealRange (normalRange s) := by
  unfold rangeUpdate
  rw [if_neg h]

lemma quickChargeRange_low (s : MiState) (h : s.car_SOC ≤ 10) :
    quickChargeRange s = { s with car_estrange := 0 } := by
  unfold quickChargeRange
  rw [if_pos h]

lemma quickChargeRange_mid (s : MiState) (h1 : 10 < s.car_SOC) (h2 : s.car_SOC < 20) :
    quickChargeRange s =
      { s with mi_last_good_SOC := 20, mi_last_good_range := 8,
               car_estrange := 8 * (s.car_SOC - 10) / 10 } := by
  unfold quickChargeRange
  dsimp only
  rw [if_neg (by omega), if_pos h2]
  norm_num

lemma quickChargeRange_high (s : MiState) (h : 20 ≤ s.car_SOC) :
    quickChargeRange s =
      { s with car_estrange :=
          s.mi_last_good_range * (s.car_SOC - 10)
            / ((s.mi_last_good_SOC + 65526) % 65536) } := by
  unfold quickChargeRange
  dsimp only
  rw [if_neg (by omega), if_neg (by omega)]

lemma normalRange_anchor (s : MiState) :
    ((normalRange s).mi_last_good_SOC = s.mi_last_good_SOC ∧
     (normalRange s).mi_last_good_range = s.mi_last_good_range) ∨
    (20 ≤ s.car_SOC ∧ 5 ≤ (normalRange s).car_estrange ∧
     (normalRange s).mi_last_good_SOC = s.car_SOC ∧
     (normalRange s).mi_last_good_range = (normalRange s).car_estrange % 256) := by
  unfold normalRange
  dsimp only
  repeat' split
  all_goals first
    | (left; exact ⟨rfl, rfl⟩)
    | (right; simp_all)

lemma normalRange_keepSOC (s : MiState) :
    (normalRange s).car_SOC = s.car_SOC ∧
    (normalRange s).mi_quick_charge = s.mi_quick_charge := by
  unfold normalRange
  dsimp only
  repeat' split
  all_goals exact ⟨rfl, rfl⟩

lemma poll0_anchor (f : Frame) (s : MiState) :
    (vehicle_mitsubishi_poll0 f s).mi_last_good_SOC = s.mi_last_good_SOC ∧
    (vehicle_mitsubishi_poll0 f s).mi_last_good_range = s.mi_last_good_range := by
  unfold vehicle_mitsubishi_poll0
  dsimp only
  repeat' split
  all_goals exact ⟨rfl, rfl⟩

lemma poll1_anchor (f : Frame) (s : MiState) :
    (vehicle_mitsubishi_poll1 f s).mi_last_good_SOC = s.mi_last_good_SOC ∧
    (vehicle_mitsubishi_poll1 f s).mi_last_good_range = s.mi_last_good_range := by
  unfold vehicle_mitsubishi_poll1
  dsimp only
  repeat' split
  all_goals exact ⟨rfl, rfl⟩

lemma ticker10_anchor (s : MiState) :
    (vehicle_mitsubishi_ticker10 s).mi_last_good_SOC = s.mi_last_good_SOC ∧
    (vehicle_mitsubishi_ticker10 s).mi_last_good_range = s.mi_last_good_range := by
  exact ⟨rfl, rfl⟩

lemma initialise_anchor (s : MiState) :
    (vehicle_mitsubishi_initialise s).mi_last_good_SOC = s.mi_last_good_SOC ∧
    (vehicle_mitsubishi_initialise s).mi_last_good_range = s.mi_last_good_range := by
  exact ⟨rfl, rfl⟩

lemma qcObs255 (s : MiState) (h : s.car_speed < 5) :
    (vehicle_mitsubishi_poll0 (rangeFrame 255) s).mi_qc_counter = s.mi_qc_counter - 1 ∧
    (vehicle_mitsubishi_poll0 (rangeFrame 255) s).mi_quick_charge
      = (if s.mi_qc_counter ≤ 1 then 1 else s.mi_quick_charge) ∧
    (vehicle_mitsubishi_poll0 (rangeFrame 255) s).car_speed = s.car_speed := by
  unfold vehicle_mitsubishi_poll0 rangeFrame Frame.byte
  norm_num [List.getD_cons_succ, List.getD_cons_zero]
  rw [if_pos h]
  by_cases hc : 0 < s.mi_qc_counter
  · rw [if_pos hc]
    dsimp only
    by_cases h0 : s.mi_qc_counter - 1 = 0
    · rw [if_pos h0]
      refine ⟨rfl, ?_, rfl⟩
      rw [if_pos (by omega)]
    · rw [if_neg h0]
      refine ⟨rfl, ?_, rfl⟩
      rw [if_neg (by omega)]
  · rw [if_neg hc]
    dsimp only
    rw [if_pos (by omega)]
    try dsimp only
    refine ⟨by omega, ?_, rfl⟩
    rw [if_pos (by omega)]

lemma qcObs100 (s : MiState) :
    (vehicle_mitsubishi_poll0 (rangeFrame 100) s).mi_qc_counter
      = (if s.mi_qc_counter < 3 then s.mi_qc_counter + 1 else s.mi_qc_counter) ∧
    (vehicle_mitsubishi_poll0 (rangeFrame 100) s).mi_quick_charge
      = (if s.mi_qc_counter < 3 then s.mi_quick_charge else 0) ∧
    (vehicle_mitsubishi_poll0 (rangeFrame 100) s).car_speed = s.car_speed := by
  unfold vehicle_mitsubishi_poll0 rangeFrame Frame.byte
  norm_num [List.getD_cons_succ, List.getD_cons_zero]
  by_cases hc : s.mi_qc_counter < 3
  · rw [if_pos hc, if_pos hc, if_pos hc]
    exact ⟨rfl, rfl, rfl⟩
  · rw [if_neg hc, if_neg hc, if_neg hc]
    exact ⟨rfl, rfl, rfl⟩

lemma qcRun_nil (s : MiState) : qcRun [] s = s := rfl

lemma qcRun_cons (b : Nat) (bs : List Nat) (s : MiState) :
    qcRun (b :: bs) s = qcRun bs (vehicle_mitsubishi_poll0 (rangeFrame b) s) := rfl

lemma qcRun_append (xs ys : List Nat) (s : MiState) :
    qcRun (xs ++ ys) s = qcRun ys (qcRun xs s) := by
  simp [qcRun, List.foldl_append]

lemma altCD_qc : ∀ (n : Nat) (s : MiState), s.car_speed < 5 →
    s.mi_quick_charge = 0 → s.mi_qc_counter = 3 →
    (qcRun (altCD n) s).mi_quick_charge = 0 ∧
    (qcRun (altCD n) s).mi_qc_counter = 3 ∧
    (qcRun (altCD n) s).car_speed = s.car_speed
  | 0, s, _, hq, hc => ⟨hq, hc, rfl⟩
  | n + 1, s, h5, hq, hc => by
    have e1 := qcObs255 s h5
    have e2 := qcObs100 (vehicle_mitsubishi_poll0 (rangeFrame 255) s)
    have hq1 : (vehicle_mitsubishi_poll0 (rangeFrame 255) s).mi_quick_charge = 0 := by
      rw [e1.2.1, if_neg (by omega)]; exact hq
    have hc1 : (vehicle_mitsubishi_poll0 (rangeFrame 255) s).mi_qc_counter = 2 := by
      rw [e1.1, hc]
    have h51 : (vehicle_mitsubishi_poll0 (rangeFrame 255) s).car_speed < 5 := by
      rw [e1.2.2]; exact h5
    have hq2 : (vehicle_mitsubishi_poll0 (rangeFrame 100)
        (vehicle_mitsubishi_poll0 (rangeFrame 255) s)).mi_quick_charge = 0 := by
      rw [e2.2.1, if_pos (by omega)]; exact hq1
    have hc2 : (vehicle_mitsubishi_poll0 (rangeFrame 100)
        (vehicle_mitsubishi_poll0 (rangeFrame 255) s)).mi_qc_counter = 3 := by
      rw [e2.1, if_pos (by omega), hc1]
    have h52 : (vehicle_mitsubishi_poll0 (rangeFrame 100)
        (vehicle_mitsubishi_poll0 (rangeFrame 255) s)).car_speed < 5 := by
      rw [e2.2.2]; exact h51
    have ih := altCD_qc n _ h52 hq2 hc2
    refine ⟨?_, ?_, ?_⟩
    · rw [show altCD (n + 1) = 255 :: 100 :: altCD n from rfl, qcRun_cons, qcRun_cons]
      exact ih.1
    · rw [show altCD (n + 1) = 255 :: 100 :: altCD n from rfl, qcRun_cons, qcRun_cons]
      exact ih.2.1
    · rw [show altCD (n + 1) = 255 :: 100 :: altCD n from rfl, qcRun_cons, qcRun_cons]
      rw [ih.2.2, e2.2.2, e1.2.2]

lemma altDC_qc : ∀ (n : Nat) (s : MiState), s.car_speed < 5 →
    s.mi_quick_charge = 1 → s.mi_qc_counter = 0 →
    (qcRun (altDC n) s).mi_quick_charge = 1 ∧
    (qcRun (altDC n) s).mi_qc_counter = 0 ∧
    (qcRun (altDC n) s).car_speed = s.car_speed
  | 0, s, _, hq, hc => ⟨hq, hc, rfl⟩
  | n + 1, s, h5, hq, hc => by
    have e1 := qcObs100 s
    have hq1 : (vehicle_mitsubishi_poll0 (rangeFrame 100) s).mi_quick_charge = 1 := by
      rw [e1.2.1, if_pos (by omega)]; exact hq
    have hc1 : (vehicle_mitsubishi_poll0 (rangeFrame 100) s).mi_qc_counter = 1 := by
      rw [e1.1, if_pos (by omega), hc]
    have h51 : (vehicle_mitsubishi_poll0 (rangeFrame 100) s).car_speed < 5 := by
      rw [e1.2.2]; exact h5
    have e2 := qcObs255 (vehicle_mitsubishi_poll0 (rangeFrame 100) s) h51
    have hq2 : (vehicle_mitsubishi_poll0 (rangeFrame 255)
        (vehicle_mitsubishi_poll0 (rangeFrame 100) s)).mi_quick_charge = 1 := by
      rw [e2.2.1, if_pos (by omega)]
    have hc2 : (vehicle_mitsubishi_poll0 (rangeFrame 255)
        (vehicle_mitsubishi_poll0 (rangeFrame 100) s)).mi_qc_counter = 0 := by
      rw [e2.1, hc1]
    have h52 : (vehicle_mitsubishi_poll0 (rangeFrame 255)
        (vehicle_mitsubishi_poll0 (rangeFrame 100) s)).car_speed < 5 := by
      rw [e2.2.2]; exact h51
    have ih := altDC_qc n _ h52 hq2 hc2
    refine ⟨?_, ?_, ?_⟩
    · rw [show altDC (n + 1) = 100 :: 255 :: altDC n from rfl, qcRun_cons, qcRun_cons]
      exact ih.1
    · rw [show altDC (n + 1) = 100 :: 255 :: altDC n from rfl, qcRun_cons, qcRun_cons]
      exact ih.2.1
    · rw [show altDC (n + 1) = 100 :: 255 :: altDC n from rfl, qcRun_cons, qcRun_cons]
      rw [ih.2.2, e2.2.2, e1.2.2]

/-- C2 (corrected, amended): the quick-charge debounce filter is a
saturating up/down counter, not a consecutive-run detector.  From the
fully disconfirmed state (flag false, counter 3), exactly 3 consecutive
confirming observations (range byte 255 at speed < 5) set the flag and
fewer do not; from the confirmed state (flag true, counter 0), 4
consecutive disconfirming observations are needed to clear the flag and
3 leave it set; a strictly alternating sequence of single
confirming/disconfirming frames starting from either stable state never
flips the flag at any point. -/
theorem C2_amended_qc_filter :
    (∀ s : MiState, s.car_speed < 5 → s.mi_quick_charge = 0 → s.mi_qc_counter = 3 →
       (qcRun [255] s).mi_quick_charge = 0 ∧
       (qcRun [255, 255] s).mi_quick_charge = 0 ∧
       (qcRun [255, 255, 255] s).mi_quick_charge = 1) ∧
    (∀ s : MiState, s.mi_quick_charge = 1 → s.mi_qc_counter = 0 →
       (qcRun [100] s).mi_quick_charge = 1 ∧
       (qcRun [100, 100] s).mi_quick_charge = 1 ∧
       (qcRun [100, 100, 100] s).mi_quick_charge = 1 ∧
       (qcRun [100, 100, 100, 100] s).mi_quick_charge = 0) ∧
    (∀ (n : Nat) (s : MiState), s.car_speed < 5 → s.mi_quick_charge = 0 → s.mi_qc_counter = 3 →
       (qcRun (altCD n) s).mi_quick_charge = 0 ∧
       (qcRun (altCD n ++ [255]) s).mi_quick_charge = 0) ∧
    (∀ (n : Nat) (s : MiState), s.car_speed < 5 → s.mi_quick_charge = 1 → s.mi_qc_counter = 0 →
       (qcRun (altDC n) s).mi_quick_charge = 1 ∧
       (qcRun (altDC n ++ [100]) s).mi_quick_charge = 1) := by
  refine ⟨?_, ?_, ?_, ?_⟩
  · intro s h5 hq hc
    have e1 := qcObs255 s h5
    have hq1 : (vehicle_mitsubishi_poll0 (rangeFrame 255) s).mi_quick_charge = 0 := by
      rw [e1.2.1, if_neg (by omega)]; exact hq
    have hc1 : (vehicle_mitsubishi_poll0 (rangeFrame 255) s).mi_qc_counter = 2 := by
      rw [e1.1, hc]
    have h51 : (vehicle_mitsubishi_poll0 (rangeFrame 255) s).car_speed < 5 := by
      rw [e1.2.2]; exact h5
    have e2 := qcObs255 _ h51
    have hq2 : (vehicle_mitsubishi_poll0 (rangeFrame 255)
        (vehicle_mitsubishi_poll0 (rangeFrame 255) s)).mi_quick_charge = 0 := by
      rw [e2.2.1, if_neg (by omega)]; exact hq1
    have hc2 : (vehicle_mitsubishi_poll0 (rangeFrame 255)
        (vehicle_mitsubishi_poll0 (rangeFrame 255) s)).mi_qc_counter = 1 := by
      rw [e2.1, hc1]
    have h52 : (vehicle_mitsubishi_poll0 (rangeFrame 255)
        (vehicle_mitsubishi_poll0 (rangeFrame 255) s)).car_speed < 5 := by
      rw [e2.2.2]; exact h51
    have e3 := qcObs255 _ h52
    refine ⟨?_, ?_, ?_⟩
    · rw [qcRun_cons, qcRun_nil]; exact hq1
    · rw [qcRun_cons, qcRun_cons, qcRun_nil]; exact hq2
    · rw [qcRun_cons, qcRun_cons, qcRun_cons, qcRun_nil]
      rw [e3.2.1, if_pos (by omega)]
  · intro s hq hc
    have e1 := qcObs100 s
    have hq1 : (vehicle_mitsubishi_poll0 (rangeFrame 100) s).mi_quick_charge = 1 := by
      rw [e1.2.1, if_pos (by omega)]; exact hq
    have hc1 : (vehicle_mitsubishi_poll0 (rangeFrame 100) s).mi_qc_counter = 1 := by
      rw [e1.1, if_pos (by omega), hc]
    have e2 := qcObs100 (vehicle_mitsubishi_poll0 (rangeFrame 100) s)
    have hq2 : (vehicle_mitsubishi_poll0 (rangeFrame 100)
        (vehicle_mitsubishi_poll0 (rangeFrame 100) s)).mi_quick_charge = 1 := by
      rw [e2.2.1, if_pos (by omega)]; exact hq1
    have hc2 : (vehicle_mitsubishi_poll0 (rangeFrame 100)
        (vehicle_mitsubishi_poll0 (rangeFrame 100) s)).mi_qc_counter = 2 := by
      rw [e2.1, if_pos (by omega), hc1]
    have e3 := qcObs100 (vehicle_mitsubishi_poll0 (rangeFrame 100)
        (vehicle_mitsubishi_poll0 (rangeFrame 100) s))
    have hq3 : (vehicle_mitsubishi_poll0 (rangeFrame 100) (vehicle_mitsubishi_poll0 (rangeFrame 100)
        (vehicle_mitsubishi_poll0 (rangeFrame 100) s))).mi_quick_charge = 1 := by
      rw [e3.2.1, if_pos (by omega)]; exact hq2
    have hc3 : (vehicle_mitsubishi_poll0 (rangeFrame 100) (vehicle_mitsubishi_poll0 (rangeFrame 100)
        (vehicle_mitsubishi_poll0 (rangeFrame 100) s))).mi_qc_counter = 3 := by
      rw [e3.1, if_pos (by omega), hc2]
    have e4 := qcObs100 (vehicle_mitsubishi_poll0 (rangeFrame 100)
        (vehicle_mitsubishi_poll0 (rangeFrame 100) (vehicle_mitsubishi_poll0 (rangeFrame 100) s)))
    refine ⟨?_, ?_, ?_, ?_⟩
    · rw [qcRun_cons, qcRun_nil]; exact hq1
    · rw [qcRun_cons, qcRun_cons, qcRun_nil]; exact hq2
    · rw [qcRun_cons, qcRun_cons, qcRun_cons, qcRun_nil]; exact hq3
    · rw [qcRun_cons, qcRun_cons, qcRun_cons, qcRun_cons, qcRun_nil]
      rw [e4.2.1, if_neg (by omega)]
  · intro n s h5 hq hc
    have ih := altCD_qc n s h5 hq hc
    refine ⟨ih.1, ?_⟩
    rw [qcRun_append, qcRun_cons, qcRun_nil]
    have e := qcObs255 (qcRun (altCD n) s) (by rw [ih.2.2]; exact h5)
    rw [e.2.1, if_neg (by omega)]
    exact ih.1
  · intro n s h5 hq hc
    have ih := altDC_qc n s h5 hq hc
    refine ⟨ih.1, ?_⟩
    rw [qcRun_append, qcRun_cons, qcRun_nil]
    have e := qcObs100 (qcRun (altDC n) s)
    rw [e.2.1, if_pos (by omega)]
    exact ih.1

/-- C2 (counterexample): from the confirmed state (flag true, counter 0),
3 consecutive disconfirming observations do NOT clear the flag (4 are
needed); and from the fully disconfirmed state, the flag can flip to true
on a sequence whose last three observations are NOT all confirming
([255, 255, 100, 255, 255]). -/
theorem C2_counterexample :
    c2Confirmed.mi_quick_charge = 1 ∧ c2Confirmed.mi_qc_counter = 0 ∧
    (qcRun [100, 100, 100] c2Confirmed).mi_quick_charge = 1 ∧
    baseState.mi_quick_charge = 0 ∧ baseState.mi_qc_counter = 3 ∧
    (qcRun [255, 255, 100, 255, 255] baseState).mi_quick_charge = 1 := by
  decide

lemma accumRun_invariant : ∀ (samples : List (Nat × Nat)) (wm kwh : Nat),
    wm + sumWatts samples < 4294967296 →
    (accumRun samples (wm, kwh)).2 * 60000 + (accumRun samples (wm, kwh)).1
      = kwh * 60000 + wm + sumWatts samples ∧
    (accumRun samples (wm, kwh)).1 ≤ wm + sumWatts samples
  | [], wm, kwh, _ => by simp [accumRun, sumWatts]
  | (c, v) :: rest, wm, kwh, h => by
    have hs : sumWatts ((c, v) :: rest) = c * v + sumWatts rest := by
      simp [sumWatts]
    have hstep : accumRun ((c, v) :: rest) (wm, kwh)
        = accumRun rest (accumulateMinute wm kwh c v) := rfl
    rw [hs] at h ⊢
    rw [hstep]
    unfold accumulateMinute
    rw [Nat.mod_eq_of_lt (by omega)]
    dsimp only
    split
    · have ih := accumRun_invariant rest (wm + c * v - 60000) (kwh + 1) (by omega)
      constructor <;> omega
    · have ih := accumRun_invariant rest (wm + c * v) kwh (by omega)
      constructor <;> omega

/-- C3 (confirmed): for every sequence of per-minute accumulation steps
outside quick-charge, starting from zeroed accumulators, the reported
kWh times 60000 plus the final watt-minute remainder equals the sum over
all minutes of current times voltage, provided the total stays below the
32-bit range of the watt-minute accumulator — no energy is created or
lost across the kWh carry boundary. -/
theorem C3_energy_conservation (samples : List (Nat × Nat))
    (h : sumWatts samples < 4294967296) :
    (accumRun samples (0, 0)).2 * 60000 + (accumRun samples (0, 0)).1
      = sumWatts samples := by
  have hinv := accumRun_invariant samples 0 0 (by omega)
  omega

/-- C3 witness: two minutes at 200 A, 240 V cross the carry boundary. -/
theorem C3_energy_conservation_witness :
    sumWatts [(200, 240), (200, 240)] < 4294967296 ∧
    (accumRun [(200, 240), (200, 240)] (0, 0)).2 * 60000
      + (accumRun [(200, 240), (200, 240)] (0, 0)).1
      = sumWatts [(200, 240), (200, 240)] :=
  ⟨by decide, C3_energy_conservation [(200, 240), (200, 240)] (by decide)⟩

set_option maxRecDepth 10000 in
/-- C4 (confirmed): from a not-charging state with SOC 50 and fresh
150 V / 16 A charge data, one tick enters CHARGING (state 1, pilot bit
set) with duration 0 and energy 0, emitting exactly one status
notification; 60 further ticks at the same inputs leave the state
CHARGING with duration 1 and no further notification. -/
theorem C4_charge_start :
    (c4Step c4Start).car_chargestate = 1 ∧
    (c4Step c4Start).car_doors1 &&& 0x08 ≠ 0 ∧
    (c4Step c4Start).car_chargeduration = 0 ∧
    (c4Step c4Start).car_chargekwh = 0 ∧
    (c4Step c4Start).notifications = [NetNotify.stat] ∧
    (c4Step^[60] (c4Step c4Start)).car_chargestate = 1 ∧
    (c4Step^[60] (c4Step c4Start)).car_chargeduration = 1 ∧
    (c4Step^[60] (c4Step c4Start)).notifications = [NetNotify.stat] := by
  decide

lemma ticker1_timers (s : MiState) :
    (vehicle_mitsubishi_ticker1 s).mi_stale_charge = s.mi_stale_charge - 1 ∧
    (vehicle_mitsubishi_ticker1 s).mi_candata_timer = s.mi_candata_timer - 1 := by
  unfold vehicle_mitsubishi_ticker1
  simp only [chargeStateMachine_keep, rangeUpdate_keep, staleTickers_timers]
  exact ⟨trivial, trivial⟩

/-- C5 (confirmed): on every tick each staleness timer decreases by
exactly 1 while positive and never goes below 0 (truncated subtraction);
the charge-stale action (clear quick-charge, zero line voltage and
charge current) fires exactly on the tick that takes the timer from 1 to
0 and on no other tick, the bus-activity timer marks the vehicle asleep
exactly on its own 1-to-0 tick, keeps it awake while still positive
after decrementing, and does nothing at 0; and over any n-tick run
without resets the timers are their initial values minus n. -/
theorem C5_stale_timers :
    (∀ s : MiState,
       (vehicle_mitsubishi_ticker1 s).mi_stale_charge = s.mi_stale_charge - 1 ∧
       (vehicle_mitsubishi_ticker1 s).mi_candata_timer = s.mi_candata_timer - 1 ∧
       (s.mi_stale_charge = 1 →
          (vehicle_mitsubishi_ticker1 s).mi_quick_charge = 0 ∧
          (vehicle_mitsubishi_ticker1 s).car_linevoltage = 0 ∧
          (vehicle_mitsubishi_ticker1 s).car_chargecurrent = 0) ∧
       (s.mi_stale_charge ≠ 1 →
          (vehicle_mitsubishi_ticker1 s).mi_quick_charge = s.mi_quick_charge ∧
          (vehicle_mitsubishi_ticker1 s).car_linevoltage = s.car_linevoltage ∧
          (vehicle_mitsubishi_ticker1 s).car_chargecurrent = s.car_chargecurrent) ∧
       (s.mi_candata_timer = 1 →
          (vehicle_mitsubishi_ticker1 s).car_doors3 = s.car_doors3 &&& 0xFE) ∧
       (1 < s.mi_candata_timer →
          (vehicle_mitsubishi_ticker1 s).car_doors3 = s.car_doors3 ||| 0x01) ∧
       (s.mi_candata_timer = 0 →
          (vehicle_mitsubishi_ticker1 s).car_doors3 = s.car_doors3)) ∧
    (∀ (n : Nat) (s : MiState),
       (vehicle_mitsubishi_ticker1^[n] s).mi_stale_charge = s.mi_stale_charge - n ∧
       (vehicle_mitsubishi_ticker1^[n] s).mi_candata_timer = s.mi_candata_timer - n) := by
  constructor
  · intro s
    refine ⟨(ticker1_timers s).1, (ticker1_timers s).2, ?_, ?_, ?_, ?_, ?_⟩
    · intro h
      unfold vehicle_mitsubishi_ticker1
      simp only [chargeStateMachine_keep, rangeUpdate_keep]
      exact staleTickers_charge_fire s h
    · intro h
      unfold vehicle_mitsubishi_ticker1
      simp only [chargeStateMachine_keep, rangeUpdate_keep]
      exact staleTickers_charge_quiet s h
    · intro h
      unfold vehicle_mitsubishi_ticker1
      simp only [chargeStateMachine_keep, rangeUpdate_keep]
      exact staleTickers_doors3_fire s h
    · intro h
      unfold vehicle_mitsubishi_ticker1
      simp only [chargeStateMachine_keep, rangeUpdate_keep]
      exact staleTickers_doors3_awake s h
    · intro h
      unfold vehicle_mitsubishi_ticker1
      simp only [chargeStateMachine_keep, rangeUpdate_keep]
      exact staleTickers_doors3_idle s h
  · intro n
    induction n with
    | zero => intro s; simp
    | succ n ih =>
      intro s
      rw [Function.iterate_succ_apply']
      have h1 := ticker1_timers (vehicle_mitsubishi_ticker1^[n] s)
      have h2 := ih s
      constructor <;> omega

/-- C5 witness: concrete timer runs. -/
theorem C5_stale_timers_witness :
    (vehicle_mitsubishi_ticker1 c5FireState).mi_quick_charge = 0 ∧
    (vehicle_mitsubishi_ticker1 c5FireState).car_linevoltage = 0 ∧
    (vehicle_mitsubishi_ticker1 c5FireState).car_doors3 = 2 ∧
    (vehicle_mitsubishi_ticker1 c5QuietState).car_linevoltage = 230 ∧
    (vehicle_mitsubishi_ticker1^[7] c5QuietState).mi_stale_charge = 23 := by
  refine ⟨((C5_stale_timers.1 c5FireState).2.2.1 (by decide)).1,
          ((C5_stale_timers.1 c5FireState).2.2.1 (by decide)).2.1,
          ?_, ((C5_stale_timers.1 c5QuietState).2.2.2.1 (by decide)).2.1, ?_⟩
  · rw [(C5_stale_timers.1 c5FireState).2.2.2.2.1 (by decide)]
    decide
  · rw [(C5_stale_timers.2 7 c5QuietState).1]
    decide

set_option maxRecDepth 4000 in
lemma doors_done_mask : ∀ d < 256, ((d &&& 0xE7) ||| 0x04) &&& 0x18 = 0 := by decide

set_option maxRecDepth 4000 in
lemma doors_stop_mask : ∀ d < 256,
    (((d &&& 0xE7) ||| 0x04) &&& 0xFB) &&& 0x18 = 0 ∧
    (((d &&& 0xE7) ||| 0x04) &&& 0xFB) &&& 0x04 = 0 := by decide

/-- C1 (corrected, amended): on a tick with charge current 0,
quick-charge false and the charge-active bit set: if line voltage is
strictly above 100 and SOC = 100 the charge state becomes DONE (4); if
line voltage is strictly below 100 the state becomes INTERRUPTED
(21/14) when SOC < 95 and DONE (4/3) otherwise, the charge-active and
pilot bits are cleared, the accumulators reset, a charge notification
and a status notification are emitted, and the charging-port bit is
cleared; at line voltage exactly 100 neither stop branch applies and the
charge state, flags, accumulators and notifications are all unchanged
(contrary to the claim, which put the boundary voltage 100 in the
interrupted/done branch). -/
theorem C1_amended_charge_stop (s : MiState)
    (hcur : s.car_chargecurrent = 0) (hqc : s.mi_quick_charge = 0)
    (hact : s.car_doors1 &&& 0x08 ≠ 0) (hst : s.mi_stale_charge ≠ 1)
    (hd : s.car_doors1 < 256) :
    (100 < s.car_linevoltage → s.car_SOC = 100 →
       (vehicle_mitsubishi_ticker1 s).car_chargestate = 4 ∧
       (vehicle_mitsubishi_ticker1 s).car_chargesubstate = 3 ∧
       (vehicle_mitsubishi_ticker1 s).car_doors1 &&& 0x18 = 0 ∧
       (vehicle_mitsubishi_ticker1 s).mi_charge_timer = 0 ∧
       (vehicle_mitsubishi_ticker1 s).mi_charge_wm = 0 ∧
       (vehicle_mitsubishi_ticker1 s).notifications
         = s.notifications ++ [NetNotify.charge, NetNotify.stat]) ∧
    (s.car_linevoltage < 100 →
       (s.car_SOC < 95 →
          (vehicle_mitsubishi_ticker1 s).car_chargestate = 21 ∧
          (vehicle_mitsubishi_ticker1 s).car_chargesubstate = 14) ∧
       (95 ≤ s.car_SOC →
          (vehicle_mitsubishi_ticker1 s).car_chargestate = 4 ∧
          (vehicle_mitsubishi_ticker1 s).car_chargesubstate = 3) ∧
       (vehicle_mitsubishi_ticker1 s).car_doors1 &&& 0x18 = 0 ∧
       (vehicle_mitsubishi_ticker1 s).car_doors1 &&& 0x04 = 0 ∧
       (vehicle_mitsubishi_ticker1 s).mi_charge_timer = 0 ∧
       (vehicle_mitsubishi_ticker1 s).mi_charge_wm = 0 ∧
       (vehicle_mitsubishi_ticker1 s).notifications
         = s.notifications ++ [NetNotify.charge, NetNotify.stat] ∧
       (vehicle_mitsubishi_ticker1 s).car_doors5_Charging12V = false) ∧
    (s.car_linevoltage = 100 →
       (vehicle_mitsubishi_ticker1 s).car_chargestate = s.car_chargestate ∧
       (vehicle_mitsubishi_ticker1 s).car_chargesubstate = s.car_chargesubstate ∧
       (vehicle_mitsubishi_ticker1 s).car_doors1 = s.car_doors1 ∧
       (vehicle_mitsubishi_ticker1 s).mi_charge_timer = s.mi_charge_timer ∧
       (vehicle_mitsubishi_ticker1 s).mi_charge_wm = s.mi_charge_wm ∧
       (vehicle_mitsubishi_ticker1 s).notifications = s.notifications ∧
       (vehicle_mitsubishi_ticker1 s).car_doors5_Charging12V = s.car_doors5_Charging12V) := by
  obtain ⟨kS, kd1, kcs, kcss, kdur, kkwh, kt, kwm, klg1, klg2, kmer, kcer, knot, kmk, k12,
          kqcc, ksp⟩ := staleTickers_keep s
  obtain ⟨q1, q2, q3⟩ := staleTickers_charge_quiet s hst
  obtain ⟨rq, rv, rc, rS, rst, rcd, rd1, rd3, rcs, rcss, rdur, rkwh, rt, rwm, rnot, r12,
          rer, rqcc, rsp⟩ := rangeUpdate_keep (staleTickers s)
  have rcur0 : (rangeUpdate (staleTickers s)).car_chargecurrent = 0 := by
    rw [rc, q3, hcur]
  have rqc0 : (rangeUpdate (staleTickers s)).mi_quick_charge = 0 := by
    rw [rq, q1, hqc]
  have rd1v : (rangeUpdate (staleTickers s)).car_doors1 = s.car_doors1 := by
    rw [rd1, kd1]
  have rSv : (rangeUpdate (staleTickers s)).car_SOC = s.car_SOC := by
    rw [rS, kS]
  have rvv : (rangeUpdate (staleTickers s)).car_linevoltage = s.car_linevoltage := by
    rw [rv, q2]
  have rnotv : (rangeUpdate (staleTickers s)).notifications = s.notifications := by
    rw [rnot, knot]
  refine ⟨?_, ?_, ?_⟩
  · intro hv hsoc
    unfold vehicle_mitsubishi_ticker1
    rw [csm_balancing _ rcur0 (by rw [rvv]; exact hv) rqc0,
        balancingBranch_done _ (by rw [rd1v]; exact hact) (by rw [rSv]; exact hsoc)]
    refine ⟨rfl, rfl, ?_, rfl, rfl, ?_⟩
    · show ((rangeUpdate (staleTickers s)).car_doors1 &&& 0xE7 ||| 0x04) &&& 0x18 = 0
      rw [rd1v]
      exact doors_done_mask s.car_doors1 hd
    · show (rangeUpdate (staleTickers s)).notifications ++ _ = _
      rw [rnotv]
  · intro hv
    unfold vehicle_mitsubishi_ticker1
    rw [csm_stopped _ rcur0 (by rw [rvv]; exact hv) rqc0,
        stoppedBranch_active _ (by rw [rd1v]; exact hact)]
    refine ⟨?_, ?_, ?_, ?_, rfl, rfl, ?_, rfl⟩
    · intro hsoc
      constructor
      · show (if (rangeUpdate (staleTickers s)).car_SOC < 95 then 21 else 4) = 21
        rw [if_pos (by rw [rSv]; exact hsoc)]
      · show (if (rangeUpdate (staleTickers s)).car_SOC < 95 then 14 else 3) = 14
        rw [if_pos (by rw [rSv]; exact hsoc)]
    · intro hsoc
      constructor
      · show (if (rangeUpdate (staleTickers s)).car_SOC < 95 then 21 else 4) = 4
        rw [if_neg (by rw [rSv]; omega)]
      · show (if (rangeUpdate (staleTickers s)).car_SOC < 95 then 14 else 3) = 3
        rw [if_neg (by rw [rSv]; omega)]
    · show (((rangeUpdate (staleTickers s)).car_doors1 &&& 0xE7 ||| 0x04) &&& 0xFB) &&& 0x18 = 0
      rw [rd1v]
      exact (doors_stop_mask s.car_doors1 hd).1
    · show (((rangeUpdate (staleTickers s)).car_doors1 &&& 0xE7 ||| 0x04) &&& 0xFB) &&& 0x04 = 0
      rw [rd1v]
      exact (doors_stop_mask s.car_doors1 hd).2
    · show (rangeUpdate (staleTickers s)).notifications ++ _ = _
      rw [rnotv]
  · intro hv
    unfold vehicle_mitsubishi_ticker1
    rw [csm_idle_100 _ rcur0 (by rw [rvv]; exact hv) rqc0]
    refine ⟨?_, ?_, ?_, ?_, ?_, ?_, ?_⟩
    · rw [rcs, kcs]
    · rw [rcss, kcss]
    · rw [rd1, kd1]
    · rw [rt, kt]
    · rw [rwm, kwm]
    · rw [rnot, knot]
    · rw [r12, k12]

/-- C1 (counterexample): at line voltage exactly 100 with current 0 and a
previously-charging state at SOC 80, the tick leaves the charge state
untouched instead of declaring it interrupted. -/
theorem C1_counterexample :
    c1CexState.car_linevoltage = 100 ∧ c1CexState.car_chargecurrent = 0 ∧
    c1CexState.mi_quick_charge = 0 ∧ c1CexState.car_doors1 &&& 0x08 ≠ 0 ∧
    c1CexState.car_SOC = 80 ∧
    (vehicle_mitsubishi_ticker1 c1CexState).car_chargestate = 1 ∧
    (vehicle_mitsubishi_ticker1 c1CexState).car_chargestate ≠ 21 ∧
    (vehicle_mitsubishi_ticker1 c1CexState).car_doors1 = 0x1C ∧
    (vehicle_mitsubishi_ticker1 c1CexState).notifications = [] := by
  decide

/-- C1 witness: a stop at 50 V with SOC 80 is declared interrupted. -/
theorem C1_amended_charge_stop_witness :
    (vehicle_mitsubishi_ticker1 c1WitState).car_chargestate = 21 ∧
    (vehicle_mitsubishi_ticker1 c1WitState).car_chargesubstate = 14 ∧
    (vehicle_mitsubishi_ticker1 c1WitState).car_doors1 &&& 0x18 = 0 ∧
    (vehicle_mitsubishi_ticker1 c1WitState).car_doors1 &&& 0x04 = 0 := by
  have h := C1_amended_charge_stop c1WitState (by decide) (by decide) (by decide)
    (by decide) (by decide)
  have hb := h.2.1 (by decide)
  exact ⟨(hb.1 (by decide)).1, (hb.1 (by decide)).2, hb.2.2.1, hb.2.2.2.1⟩

/-- C6 (corrected, amended): while quick-charging, if SOC is at most 10
the published estimated range is 0 and the anchor is untouched; if the
CURRENT SOC is strictly between 10 and 20 (not the anchor SOC, as the
claim had it) the anchor is replaced by the fixed fallback (20, 8) and
the published range is 8 x (SOC - 10) / 10; if the current SOC is at
least 20 the anchor is never replaced (whatever its stored SOC) and the
published range is anchor range x (SOC - 10) / (anchor SOC - 10) in
integer arithmetic whenever the stored anchor SOC is a byte of at least
20. -/
theorem C6_amended_qc_range (s : MiState) (hqc : s.mi_quick_charge = 1)
    (hst : s.mi_stale_charge ≠ 1) :
    (s.car_SOC ≤ 10 →
       (vehicle_mitsubishi_ticker1 s).car_estrange = 0 ∧
       (vehicle_mitsubishi_ticker1 s).mi_last_good_SOC = s.mi_last_good_SOC ∧
       (vehicle_mitsubishi_ticker1 s).mi_last_good_range = s.mi_last_good_range) ∧
    (10 < s.car_SOC → s.car_SOC < 20 →
       (vehicle_mitsubishi_ticker1 s).mi_last_good_SOC = 20 ∧
       (vehicle_mitsubishi_ticker1 s).mi_last_good_range = 8 ∧
       (vehicle_mitsubishi_ticker1 s).car_estrange = 8 * (s.car_SOC - 10) / 10) ∧
    (20 ≤ s.car_SOC →
       (vehicle_mitsubishi_ticker1 s).mi_last_good_SOC = s.mi_last_good_SOC ∧
       (vehicle_mitsubishi_ticker1 s).mi_last_good_range = s.mi_last_good_range ∧
       (20 ≤ s.mi_last_good_SOC → s.mi_last_good_SOC < 256 →
          (vehicle_mitsubishi_ticker1 s).car_estrange
            = s.mi_last_good_range * (s.car_SOC - 10) / (s.mi_last_good_SOC - 10))) := by
  obtain ⟨kS, kd1, kcs, kcss, kdur, kkwh, kt, kwm, klg1, klg2, kmer, kcer, knot, kmk, k12,
          kqcc, ksp⟩ := staleTickers_keep s
  have huq : (staleTickers s).mi_quick_charge = 1 := by
    rw [(staleTickers_charge_quiet s hst).1]; exact hqc
  have hru : rangeUpdate (staleTickers s)
      = idealRange (quickChargeRange (staleTickers s)) := rangeUpdate_qc _ huq
  refine ⟨?_, ?_, ?_⟩
  · intro h
    unfold vehicle_mitsubishi_ticker1
    rw [hru, quickChargeRange_low _ (by rw [kS]; exact h)]
    simp only [chargeStateMachine_keep, idealRange_keep]
    exact ⟨trivial, klg1, klg2⟩
  · intro h1 h2
    unfold vehicle_mitsubishi_ticker1
    rw [hru, quickChargeRange_mid _ (by rw [kS]; exact h1) (by rw [kS]; exact h2)]
    simp only [chargeStateMachine_keep, idealRange_keep]
    refine ⟨trivial, trivial, ?_⟩
    show 8 * ((staleTickers s).car_SOC - 10) / 10 = _
    rw [kS]
  · intro h
    unfold vehicle_mitsubishi_ticker1
    rw [hru, quickChargeRange_high _ (by rw [kS]; exact h)]
    simp only [chargeStateMachine_keep, idealRange_keep]
    refine ⟨klg1, klg2, ?_⟩
    intro hlg1 hlg2
    show (staleTickers s).mi_last_good_range * ((staleTickers s).car_SOC - 10)
        / (((staleTickers s).mi_last_good_SOC + 65526) % 65536) = _
    rw [kS, klg1, klg2]
    have hm : (s.mi_last_good_SOC + 65526) % 65536 = s.mi_last_good_SOC - 10 := by
      omega
    rw [hm]

/-- C6 (counterexample): quick-charging at SOC 15 with a good anchor
(SOC 50, range 40): the code replaces the anchor by the fallback (20, 8)
and publishes 4, although the anchor SOC was not below 20 (the claim
would keep the anchor and publish 40×5/40 = 5). -/
theorem C6_counterexample :
    c6CexState.mi_quick_charge = 1 ∧
    c6CexState.mi_last_good_SOC = 50 ∧
    20 ≤ c6CexState.mi_last_good_SOC ∧
    (vehicle_mitsubishi_ticker1 c6CexState).mi_last_good_SOC = 20 ∧
    (vehicle_mitsubishi_ticker1 c6CexState).mi_last_good_range = 8 ∧
    (vehicle_mitsubishi_ticker1 c6CexState).car_estrange = 4 := by
  decide

/-- C6 witness: quick-charging at SOC 30 with anchor (60, 45) publishes
45 × 20 / 50 = 18 and keeps the anchor. -/
theorem C6_amended_qc_range_witness :
    (vehicle_mitsubishi_ticker1 c6WitState).mi_last_good_SOC = 60 ∧
    (vehicle_mitsubishi_ticker1 c6WitState).car_estrange = 18 := by
  have h := (C6_amended_qc_range c6WitState (by decide) (by decide)).2.2 (by decide)
  refine ⟨?_, ?_⟩
  · rw [h.1]
    decide
  · rw [h.2.2 (by decide) (by decide)]
    decide

/-- C9 (confirmed): on a tick with charge current 0, line voltage above
100, quick-charge false, the charge-active bit set and SOC below 100
(the cell-balancing pause with the pack not full), the charge state,
substate, duration, accumulated kWh, watt-minute remainder and the door
flags are all unchanged; only the 12V-charging flag is cleared. -/
theorem C9_balancing_pause (s : MiState)
    (hcur : s.car_chargecurrent = 0) (hv : 100 < s.car_linevoltage)
    (hqc : s.mi_quick_charge = 0) (hact : s.car_doors1 &&& 0x08 ≠ 0)
    (hsoc : s.car_SOC < 100) (hst : s.mi_stale_charge ≠ 1) :
    (vehicle_mitsubishi_ticker1 s).car_chargestate = s.car_chargestate ∧
    (vehicle_mitsubishi_ticker1 s).car_chargesubstate = s.car_chargesubstate ∧
    (vehicle_mitsubishi_ticker1 s).car_chargeduration = s.car_chargeduration ∧
    (vehicle_mitsubishi_ticker1 s).car_chargekwh = s.car_chargekwh ∧
    (vehicle_mitsubishi_ticker1 s).mi_charge_wm = s.mi_charge_wm ∧
    (vehicle_mitsubishi_ticker1 s).mi_charge_timer = s.mi_charge_timer ∧
    (vehicle_mitsubishi_ticker1 s).car_doors1 = s.car_doors1 ∧
    (vehicle_mitsubishi_ticker1 s).car_doors5_Charging12V = false := by
  obtain ⟨kS, kd1, kcs, kcss, kdur, kkwh, kt, kwm, klg1, klg2, kmer, kcer, knot, kmk, k12,
          kqcc, ksp⟩ := staleTickers_keep s
  obtain ⟨q1, q2, q3⟩ := staleTickers_charge_quiet s hst
  obtain ⟨rq, rv, rc, rS, rst, rcd, rd1, rd3, rcs, rcss, rdur, rkwh, rt, rwm, rnot, r12,
          rer, rqcc, rsp⟩ := rangeUpdate_keep (staleTickers s)
  have rcur0 : (rangeUpdate (staleTickers s)).car_chargecurrent = 0 := by
    rw [rc, q3, hcur]
  have rqc0 : (rangeUpdate (staleTickers s)).mi_quick_charge = 0 := by
    rw [rq, q1, hqc]
  unfold vehicle_mitsubishi_ticker1
  rw [csm_balancing _ rcur0 (by rw [rv, q2]; exact hv) rqc0,
      balancingBranch_noop _ (by rw [rS, kS]; omega)]
  refine ⟨?_, ?_, ?_, ?_, ?_, ?_, ?_, rfl⟩
  · rw [show ({ rangeUpdate (staleTickers s) with car_doors5_Charging12V := false } :
        MiState).car_chargestate = (rangeUpdate (staleTickers s)).car_chargestate from rfl,
        rcs, kcs]
  · rw [show ({ rangeUpdate (staleTickers s) with car_doors5_Charging12V := false } :
        MiState).car_chargesubstate = (rangeUpdate (staleTickers s)).car_chargesubstate from rfl,
        rcss, kcss]
  · rw [show ({ rangeUpdate (staleTickers s) with car_doors5_Charging12V := false } :
        MiState).car_chargeduration = (rangeUpdate (staleTickers s)).car_chargeduration from rfl,
        rdur, kdur]
  · rw [show ({ rangeUpdate (staleTickers s) with car_doors5_Charging12V := false } :
        MiState).car_chargekwh = (rangeUpdate (staleTickers s)).car_chargekwh from rfl,
        rkwh, kkwh]
  · rw [show ({ rangeUpdate (staleTickers s) with car_doors5_Charging12V := false } :
        MiState).mi_charge_wm = (rangeUpdate (staleTickers s)).mi_charge_wm from rfl,
        rwm, kwm]
  · rw [show ({ rangeUpdate (staleTickers s) with car_doors5_Charging12V := false } :
        MiState).mi_charge_timer = (rangeUpdate (staleTickers s)).mi_charge_timer from rfl,
        rt, kt]
  · rw [show ({ rangeUpdate (staleTickers s) with car_doors5_Charging12V := false } :
        MiState).car_doors1 = (rangeUpdate (staleTickers s)).car_doors1 from rfl,
        rd1, kd1]

/-- C9 witness: the balancing pause at 230 V, SOC 70 mid-charge. -/
theorem C9_balancing_pause_witness :
    (vehicle_mitsubishi_ticker1 c9WitState).car_chargestate = 1 ∧
    (vehicle_mitsubishi_ticker1 c9WitState).car_chargeduration = 9 ∧
    (vehicle_mitsubishi_ticker1 c9WitState).car_doors1 = 0x1C ∧
    (vehicle_mitsubishi_ticker1 c9WitState).car_doors5_Charging12V = false := by
  have h := C9_balancing_pause c9WitState (by decide) (by decide) (by decide)
    (by decide) (by decide) (by decide)
  refine ⟨?_, ?_, ?_, h.2.2.2.2.2.2.2⟩
  · rw [h.1]
    decide
  · rw [h.2.2.1]
    decide
  · rw [h.2.2.2.2.2.2.1]
    decide

/-- C7 (corrected, amended): neither frame handler, the 10-second tick,
nor initialisation ever writes the last-good anchor; on a 1-second tick
the anchor changes only through one of exactly two writes — the
quick-charge fallback (quick-charging, stale timer not expiring, current
SOC strictly between 10 and 20, storing the fixed pair (20, 8) — this
write violates the claim, which allowed writes only at SOC at least 20)
or the last-good update (current SOC at least 20 and published range at
least 5, storing the current SOC and the published range truncated to a
byte).  The anchor is only ever overwritten with one of these values,
never cleared. -/
theorem C7_amended_anchor (f : Frame) (s : MiState) :
    ((vehicle_mitsubishi_poll0 f s).mi_last_good_SOC = s.mi_last_good_SOC ∧
     (vehicle_mitsubishi_poll0 f s).mi_last_good_range = s.mi_last_good_range) ∧
    ((vehicle_mitsubishi_poll1 f s).mi_last_good_SOC = s.mi_last_good_SOC ∧
     (vehicle_mitsubishi_poll1 f s).mi_last_good_range = s.mi_last_good_range) ∧
    ((vehicle_mitsubishi_ticker10 s).mi_last_good_SOC = s.mi_last_good_SOC ∧
     (vehicle_mitsubishi_ticker10 s).mi_last_good_range = s.mi_last_good_range) ∧
    ((vehicle_mitsubishi_initialise s).mi_last_good_SOC = s.mi_last_good_SOC ∧
     (vehicle_mitsubishi_initialise s).mi_last_good_range = s.mi_last_good_range) ∧
    ((vehicle_mitsubishi_ticker1 s).mi_last_good_SOC ≠ s.mi_last_good_SOC ∨
     (vehicle_mitsubishi_ticker1 s).mi_last_good_range ≠ s.mi_last_good_range →
       (s.mi_quick_charge = 1 ∧ s.mi_stale_charge ≠ 1 ∧
          10 < s.car_SOC ∧ s.car_SOC < 20 ∧
          (vehicle_mitsubishi_ticker1 s).mi_last_good_SOC = 20 ∧
          (vehicle_mitsubishi_ticker1 s).mi_last_good_range = 8) ∨
       (20 ≤ s.car_SOC ∧ 5 ≤ (vehicle_mitsubishi_ticker1 s).car_estrange ∧
          (vehicle_mitsubishi_ticker1 s).mi_last_good_SOC = s.car_SOC ∧
          (vehicle_mitsubishi_ticker1 s).mi_last_good_range
            = (vehicle_mitsubishi_ticker1 s).car_estrange % 256)) := by
  refine ⟨poll0_anchor f s, poll1_anchor f s, ticker10_anchor s, initialise_anchor s, ?_⟩
  intro hch
  obtain ⟨kS, kd1, kcs, kcss, kdur, kkwh, kt, kwm, klg1, klg2, kmer, kcer, knot, kmk, k12,
          kqcc, ksp⟩ := staleTickers_keep s
  by_cases hq : (staleTickers s).mi_quick_charge = 1
  · have hst : s.mi_stale_charge ≠ 1 := by
      intro h1
      have hz := (staleTickers_charge_fire s h1).1
      omega
    have hsq : s.mi_quick_charge = 1 := by
      have hk := (staleTickers_charge_quiet s hst).1
      rw [hk] at hq
      exact hq
    have hru := rangeUpdate_qc _ hq
    rcases Nat.lt_or_ge 10 s.car_SOC with h10 | h10
    · rcases Nat.lt_or_ge s.car_SOC 20 with h20 | h20
      · left
        refine ⟨hsq, hst, h10, h20, ?_, ?_⟩
        · unfold vehicle_mitsubishi_ticker1
          rw [hru, quickChargeRange_mid _ (by rw [kS]; exact h10) (by rw [kS]; exact h20)]
          simp only [chargeStateMachine_keep, idealRange_keep]
        · unfold vehicle_mitsubishi_ticker1
          rw [hru, quickChargeRange_mid _ (by rw [kS]; exact h10) (by rw [kS]; exact h20)]
          simp only [chargeStateMachine_keep, idealRange_keep]
      · exfalso
        have e1 : (vehicle_mitsubishi_ticker1 s).mi_last_good_SOC = s.mi_last_good_SOC := by
          unfold vehicle_mitsubishi_ticker1
          rw [hru, quickChargeRange_high _ (by rw [kS]; exact h20)]
          simp only [chargeStateMachine_keep, idealRange_keep]
          exact klg1
        have e2 : (vehicle_mitsubishi_ticker1 s).mi_last_good_range = s.mi_last_good_range := by
          unfold vehicle_mitsubishi_ticker1
          rw [hru, quickChargeRange_high _ (by rw [kS]; exact h20)]
          simp only [chargeStateMachine_keep, idealRange_keep]
          exact klg2
        rcases hch with h | h
        · exact h e1
        · exact h e2
    · exfalso
      have e1 : (vehicle_mitsubishi_ticker1 s).mi_last_good_SOC = s.mi_last_good_SOC := by
        unfold vehicle_mitsubishi_ticker1
        rw [hru, quickChargeRange_low _ (by rw [kS]; omega)]
        simp only [chargeStateMachine_keep, idealRange_keep]
        exact klg1
      have e2 : (vehicle_mitsubishi_ticker1 s).mi_last_good_range = s.mi_last_good_range := by
        unfold vehicle_mitsubishi_ticker1
        rw [hru, quickChargeRange_low _ (by rw [kS]; omega)]
        simp only [chargeStateMachine_keep, idealRange_keep]
        exact klg2
      rcases hch with h | h
      · exact h e1
      · exact h e2
  · have hru := rangeUpdate_noqc _ hq
    rcases normalRange_anchor (staleTickers s) with ⟨e1, e2⟩ | ⟨h20, h5, e1, e2⟩
    · exfalso
      have f1 : (vehicle_mitsubishi_ticker1 s).mi_last_good_SOC = s.mi_last_good_SOC := by
        unfold vehicle_mitsubishi_ticker1
        rw [hru]
        simp only [chargeStateMachine_keep, idealRange_keep]
        rw [e1, klg1]
      have f2 : (vehicle_mitsubishi_ticker1 s).mi_last_good_range = s.mi_last_good_range := by
        unfold vehicle_mitsubishi_ticker1
        rw [hru]
        simp only [chargeStateMachine_keep, idealRange_keep]
        rw [e2, klg2]
      rcases hch with h | h
      · exact h f1
      · exact h f2
    · right
      have hty : (vehicle_mitsubishi_ticker1 s).car_estrange
          = (normalRange (staleTickers s)).car_estrange := by
        unfold vehicle_mitsubishi_ticker1
        rw [hru]
        simp only [chargeStateMachine_keep, idealRange_keep]
      refine ⟨?_, ?_, ?_, ?_⟩
      · rw [← kS]; exact h20
      · rw [hty]; exact h5
      · unfold vehicle_mitsubishi_ticker1
        rw [hru]
        simp only [chargeStateMachine_keep, idealRange_keep]
        rw [e1, kS]
      · unfold vehicle_mitsubishi_ticker1
        rw [hru]
        simp only [chargeStateMachine_keep, idealRange_keep]
        rw [e2]

/-- C7 (counterexample): quick-charging at SOC 12 with anchor (80, 60):
the fallback write stores (20, 8) although SOC 12 < 20 — the anchor is
written on a tick where the current SOC is below 20. -/
theorem C7_counterexample :
    c7CexState.car_SOC = 12 ∧
    c7CexState.mi_last_good_SOC = 80 ∧ c7CexState.mi_last_good_range = 60 ∧
    (vehicle_mitsubishi_ticker1 c7CexState).mi_last_good_SOC = 20 ∧
    (vehicle_mitsubishi_ticker1 c7CexState).mi_last_good_range = 8 := by
  decide

/-- C7 witness: the change at c7CexState falls under the fallback rule. -/
theorem C7_amended_anchor_witness :
    (vehicle_mitsubishi_poll0 chargeFrame150 baseState).mi_last_good_SOC
      = baseState.mi_last_good_SOC ∧
    ((c7CexState.mi_quick_charge = 1 ∧ c7CexState.mi_stale_charge ≠ 1 ∧
        10 < c7CexState.car_SOC ∧ c7CexState.car_SOC < 20 ∧
        (vehicle_mitsubishi_ticker1 c7CexState).mi_last_good_SOC = 20 ∧
        (vehicle_mitsubishi_ticker1 c7CexState).mi_last_good_range = 8) ∨
     (20 ≤ c7CexState.car_SOC ∧
        5 ≤ (vehicle_mitsubishi_ticker1 c7CexState).car_estrange ∧
        (vehicle_mitsubishi_ticker1 c7CexState).mi_last_good_SOC = c7CexState.car_SOC ∧
        (vehicle_mitsubishi_ticker1 c7CexState).mi_last_good_range
          = (vehicle_mitsubishi_ticker1 c7CexState).car_estrange % 256)) :=
  ⟨(C7_amended_anchor chargeFrame150 baseState).1.1,
   (C7_amended_anchor chargeFrame150 c7CexState).2.2.2.2 (by decide)⟩

/-- C8 (corrected, amended): the initialisation entry point zeroes the
bus-activity timer, the charge staleness timer, the quick-charge flag,
the raw range reading and all 24 battery-temperature slots, sets the
quick-charge filter counter to its ceiling 3, resets the clock and the
SOC alert limit, and disables timed charging — but it leaves the
per-second charge timer, the watt-minute accumulator and the last-good
SOC/range anchor untouched (contrary to the claim, which had every
internal counter and anchor reset). -/
theorem C8_amended_initialise (s : MiState) :
    (vehicle_mitsubishi_initialise s).mi_candata_timer = 0 ∧
    (vehicle_mitsubishi_initialise s).mi_stale_charge = 0 ∧
    (vehicle_mitsubishi_initialise s).mi_quick_charge = 0 ∧
    (vehicle_mitsubishi_initialise s).mi_qc_counter = 3 ∧
    (vehicle_mitsubishi_initialise s).mi_estrange = 0 ∧
    (vehicle_mitsubishi_initialise s).mi_batttemps = List.replicate 24 0 ∧
    (vehicle_mitsubishi_initialise s).car_time = 0 ∧
    (vehicle_mitsubishi_initialise s).car_SOCalertlimit = 10 ∧
    (vehicle_mitsubishi_initialise s).car_stale_timer = -1 ∧
    (vehicle_mitsubishi_initialise s).mi_charge_timer = s.mi_charge_timer ∧
    (vehicle_mitsubishi_initialise s).mi_charge_wm = s.mi_charge_wm ∧
    (vehicle_mitsubishi_initialise s).mi_last_good_SOC = s.mi_last_good_SOC ∧
    (vehicle_mitsubishi_initialise s).mi_last_good_range = s.mi_last_good_range := by
  exact ⟨rfl, rfl, rfl, rfl, rfl, rfl, rfl, rfl, rfl, rfl, rfl, rfl, rfl⟩

/-- C8 (counterexample): the initialisation entry point leaves the
per-second charge timer, the watt-minute accumulator and the last-good
anchor untouched, contrary to the claim that every internal counter and
anchor is zeroed. -/
theorem C8_counterexample :
    (vehicle_mitsubishi_initialise c8CexState).mi_charge_timer = 7 ∧
    (vehicle_mitsubishi_initialise c8CexState).mi_charge_wm = 5 ∧
    (vehicle_mitsubishi_initialise c8CexState).mi_last_good_SOC = 50 ∧
    (vehicle_mitsubishi_initialise c8CexState).mi_last_good_range = 40 := by
  decide

/-- C10 (confirmed): for a battery-temperature frame (id 0x6E1), a bank
byte outside [1, 12] changes neither the 24-slot buffer nor the
temperature staleness timer; a bank byte b in [1, 12] resets the
staleness timer to 60 and writes exactly the two slots 2b-2 and 2b-1
(both always within 0..23) with the decoded temperatures, leaving every
other slot unchanged. -/
theorem C10_battemp_frame (f : Frame) (s : MiState) (hid : f.can_id = 0x6E1)
    (hlen : s.mi_batttemps.length = 24) :
    (f.byte 0 < 1 ∨ 12 < f.byte 0 →
       (vehicle_mitsubishi_poll1 f s).mi_batttemps = s.mi_batttemps ∧
       (vehicle_mitsubishi_poll1 f s).car_stale_temps = s.car_stale_temps) ∧
    (1 ≤ f.byte 0 → f.byte 0 ≤ 12 →
       (vehicle_mitsubishi_poll1 f s).car_stale_temps = 60 ∧
       2 * f.byte 0 - 2 < 24 ∧ 2 * f.byte 0 - 1 < 24 ∧
       (vehicle_mitsubishi_poll1 f s).mi_batttemps.length = 24 ∧
       (∀ i, i < 24 → i ≠ 2 * f.byte 0 - 2 → i ≠ 2 * f.byte 0 - 1 →
          (vehicle_mitsubishi_poll1 f s).mi_batttemps.getD i 0
            = s.mi_batttemps.getD i 0) ∧
       (vehicle_mitsubishi_poll1 f s).mi_batttemps.getD (2 * f.byte 0 - 2) 0
         = signedCharOf ((f.byte 2 : Int) - 50) ∧
       (vehicle_mitsubishi_poll1 f s).mi_batttemps.getD (2 * f.byte 0 - 1) 0
         = signedCharOf ((f.byte 3 : Int) - 50)) := by
  have hsh : f.byte 0 <<< 1 = 2 * f.byte 0 := by
    rw [Nat.shiftLeft_eq]
    omega
  unfold vehicle_mitsubishi_poll1
  rw [hid]
  norm_num
  constructor
  · intro h
    rw [if_neg (by omega)]
    exact ⟨rfl, rfl⟩
  · intro h1 h2
    rw [if_pos ⟨h1, h2⟩]
    dsimp only
    rw [hsh]
    have hl1 : (s.mi_batttemps.set (2 * f.byte 0 - 2)
        (signedCharOf ((f.byte 2 : Int) - 50))).length = 24 := by
      rw [List.length_set, hlen]
    refine ⟨rfl, by omega, by omega, ?_, ?_, ?_, ?_⟩
    · show ((s.mi_batttemps.set _ _).set (2 * f.byte 0 - 2 + 1) _).length = 24
      rw [List.length_set, hl1]
    · intro i hi hne1 hne2
      rw [List.getElem?_set_ne (by omega), List.getElem?_set_ne (by omega)]
    · rw [List.getElem?_set_ne (by omega), List.getElem?_set_eq (by omega)]
      rfl
    · have hix : 2 * f.byte 0 - 1 = 2 * f.byte 0 - 2 + 1 := by omega
      rw [hix, List.getElem?_set_eq (by rw [hl1]; omega)]
      rfl

/-- C10 witness: a bank-3 frame writes slots 4 and 5 and leaves slot 0. -/
theorem C10_battemp_frame_witness :
    (vehicle_mitsubishi_poll1 c10Frame baseState).car_stale_temps = 60 ∧
    (vehicle_mitsubishi_poll1 c10Frame baseState).mi_batttemps.getD 4 0
      = signedCharOf ((c10Frame.byte 2 : Int) - 50) ∧
    (vehicle_mitsubishi_poll1 c10Frame baseState).mi_batttemps.getD 0 0
      = baseState.mi_batttemps.getD 0 0 :=
  have h := (C10_battemp_frame c10Frame baseState (by decide) (by decide)).2
    (by decide) (by decide)
  ⟨h.1, h.2.2.2.2.2.1, h.2.2.2.2.1 0 (by decide) (by decide) (by decide)⟩

/-- C2 witness: concrete runs of the debounce filter. -/
theorem C2_amended_qc_filter_witness :
    (qcRun [255, 255, 255] baseState).mi_quick_charge = 1 ∧
    (qcRun [100, 100, 100, 100] c2Confirmed).mi_quick_charge = 0 ∧
    (qcRun (altCD 4) baseState).mi_quick_charge = 0 ∧
    (qcRun (altDC 4) c2Confirmed).mi_quick_charge = 1 :=
  ⟨(C2_amended_qc_filter.1 baseState (by decide) (by decide) (by decide)).2.2,
   (C2_amended_qc_filter.2.1 c2Confirmed (by decide) (by decide)).2.2.2,
   (C2_amended_qc_filter.2.2.1 4 baseState (by decide) (by decide) (by decide)).1,
   (C2_amended_qc_filter.2.2.2 4 c2Confirmed (by decide) (by decide) (by decide)).1⟩
